import Mathlib

/-!
# GeForce NOW runtime SDK wrapper (`GfnRuntimeSdk_Wrapper.c`)

A shallow embedding of the wrapper translation unit (Windows, release build:
`_WIN32` defined, `_DEBUG` and `GFN_SDK_WRAPPER_LOG` not defined).

* The three globals `g_gfnSdkModule`, `g_pCloudLibrary`, `g_cloudLibraryStatus`
  are fields of `State`, next to the `trace` of interactions with the outside
  (file system, loader, allocator, library entry points, user callbacks) and
  the `stores` the wrapper makes through caller supplied output pointers.
* Everything the outside answers is read from a `World`; the answers may
  depend on the whole trace so far, so a `World` describes a machine whose
  answers can change over time.
* A call through a null function pointer, and a read or write through a null
  structure pointer, is a `Fault`.
* A heap structure that is filled once and never written again (the function
  table, a registration record) is held by value; a nullable pointer to it is
  an `Option`.
* The computation of the well-known cloud library path is part of the answer
  of `PathFileExistsW`. A library function that is called does not call back
  into the wrapper and does not write the three globals.
-/

namespace Gfn

/-! ## Values -/

/-- An opaque caller pointer (`const char*`, `bool*`, `void*`, a typed callback); `0` is `NULL`. -/
abbrev Ptr := Nat

/-- A non-null module handle returned by the loader; a nullable handle is `Option HMODULE`. -/
abbrev HMODULE := Nat

/-- A non-null address returned by `GetProcAddress`; a nullable function pointer is `Option FnPtr`. -/
abbrev FnPtr := Nat

/-- The status enumeration; a C `enum`, so a plain integer. -/
abbrev GfnRuntimeError := Int

/-- Modelled from the spec: the header declaring `GfnRuntimeError` is not among
the sources. The spec names the members; the values are those of the SDK header.
Only their being pairwise different is ever used. -/
def gfnSuccess : GfnRuntimeError := 0
/-- Modelled from the spec: "not hosted, proceed as ordinary client". -/
def gfnInitSuccessClientOnly : GfnRuntimeError := 1
/-- Modelled from the spec: the cloud library (or client library) is absent. -/
def gfnDllNotPresent : GfnRuntimeError := -2
/-- Modelled from the spec: bookkeeping memory cannot be obtained. -/
def gfnUnableToAllocateMemory : GfnRuntimeError := -6
/-- Modelled from the spec: a required pointer is null. -/
def gfnInvalidParameter : GfnRuntimeError := -7
/-- Modelled from the spec: loaded but not in a cloud context, or load rejected. -/
def gfnCallWrongEnvironment : GfnRuntimeError := -14
/-- Modelled from the spec: symbol missing from an otherwise loaded library. -/
def gfnAPINotFound : GfnRuntimeError := -17
/-- Modelled from the spec: library never loaded; also the "not attempted" cached status. -/
def gfnAPINotInit : GfnRuntimeError := -18

/-- Modelled from the spec: the header declaring `GfnIsRunningInCloudAssurance`
is not among the sources; `gfnNotCloud` is its first member. -/
def gfnNotCloud : Int := 0

/-- The five callback kinds that are bridged through a trampoline. -/
inductive CallbackKind
  | Exit | Pause | Install | Save | SessionInit
  deriving DecidableEq, Repr

/-- The registration record `_gfnUserContextCallbackWrapper`. -/
structure _gfnUserContextCallbackWrapper where
  fnCallback : Ptr
  pOrigUserContext : Ptr
  deriving DecidableEq, Repr

/-- An argument handed over a library boundary. -/
inductive Arg
  | ptr (p : Ptr)
  | uint (n : Nat)
  | bool (b : Bool)
  | int (i : Int)
  | trampoline (k : CallbackKind)
  | wrapped (r : _gfnUserContextCallbackWrapper)
  deriving DecidableEq, Repr

/-- One interaction with the outside. -/
inductive Event
  | PathFileExistsW
  | LoadCloudLibrary
  | LoadClientLibrary (dllPath : Ptr)
  | malloc
  | free
  | FreeLibrary (h : HMODULE)
  | call (f : FnPtr) (args : List Arg)
  | userCallback (cb : Ptr) (args : List Arg)
  deriving DecidableEq, Repr

abbrev Trace := List Event

/-- A write of the wrapper through a caller supplied output pointer. -/
structure Store where
  addr : Ptr
  value : Int
  deriving DecidableEq, Repr

/-- The function table `GfnSdkCloudLibrary`. -/
structure GfnSdkCloudLibrary where
  handle : Option HMODULE
  InitializeRuntimeSdk : Option FnPtr
  ShutdownRuntimeSdk : Option FnPtr
  IsInitialized : Option FnPtr
  IsRunningInCloud : Option FnPtr
  IsRunningInCloudSecure : Option FnPtr
  RegisterExitCallback : Option FnPtr
  RegisterSaveCallback : Option FnPtr
  RegisterSessionInitCallback : Option FnPtr
  RegisterPauseCallback : Option FnPtr
  RegisterInstallCallback : Option FnPtr
  IsTitleAvailable : Option FnPtr
  GetTitlesAvailable : Option FnPtr
  SetupTitle : Option FnPtr
  TitleExited : Option FnPtr
  GetClientIp : Option FnPtr
  GetClientLanguageCode : Option FnPtr
  GetClientCountryCode : Option FnPtr
  GetCustomData : Option FnPtr
  GetAuthData : Option FnPtr
  Free : Option FnPtr
  AppReady : Option FnPtr
  deriving DecidableEq, Repr

/-- The process: the three globals, the trace of outside interactions and the
stores made through output pointers. -/
structure State where
  g_gfnSdkModule : Option HMODULE
  g_pCloudLibrary : Option GfnSdkCloudLibrary
  g_cloudLibraryStatus : GfnRuntimeError
  trace : Trace
  stores : List Store
  deriving DecidableEq, Repr

/-- The state at process start: `g_gfnSdkModule` zero initialised,
`g_pCloudLibrary = NULL`, `g_cloudLibraryStatus = gfnAPINotInit`. -/
def State.initial : State :=
  { g_gfnSdkModule := none, g_pCloudLibrary := none,
    g_cloudLibraryStatus := gfnAPINotInit, trace := [], stores := [] }

/-- Record an outside interaction. -/
def State.emit (s : State) (e : Event) : State := { s with trace := s.trace ++ [e] }

/-- Record a write through an output pointer. -/
def State.store (s : State) (p : Ptr) (v : Int) : State :=
  { s with stores := s.stores ++ [⟨p, v⟩] }

/-- What the outside answers. Every answer may depend on the trace so far. -/
structure World where
  /-- Answer of `PathFileExistsW` on the well-known cloud library path. -/
  PathFileExistsW : Trace → Bool
  /-- Answer of `gfnSecureLoadCloudLibraryW` on that path. -/
  gfnSecureLoadCloudLibraryW : Trace → Option HMODULE
  /-- Answer of `gfnSecureLoadClientLibraryW` on the path the caller gives. -/
  gfnSecureLoadClientLibraryW : Ptr → Trace → Option HMODULE
  /-- Whether `malloc` returns a non-null block. -/
  malloc : Trace → Bool
  /-- Answer of `GetProcAddress`: the exports of a loaded module. -/
  GetProcAddress : HMODULE → String → Option FnPtr
  /-- Result of a library function returning a status. -/
  retStatus : FnPtr → List Arg → Trace → Int
  /-- Result of a library function returning `bool`. -/
  retBool : FnPtr → List Arg → Trace → Bool

/-- Undefined behaviour the wrapper can run into. -/
inductive Fault
  /-- A call through a null function pointer. -/
  | nullCall
  /-- A read or write through a null structure pointer. -/
  | nullDeref
  deriving DecidableEq, Repr

/-- Outcome of a wrapper function: a fault, or a value and the state after. -/
abbrev Result (α : Type) := Except Fault (α × State)

/-! ## Library load and unload -/

/-- Where a `GfnSdkCloudLibrary**` argument points: at the global
`g_pCloudLibrary` (what every caller in the file passes) or at a variable of
the caller. -/
inductive LibRef
  | global
  | caller
  deriving DecidableEq, Repr

/-- Assignment `*ppCloudLibrary = v`; `loc` is the caller's variable. -/
def LibRef.assign (pp : LibRef) (v : Option GfnSdkCloudLibrary)
    (s : State) (loc : Option GfnSdkCloudLibrary) : State × Option GfnSdkCloudLibrary :=
  match pp with
  | .global => ({ s with g_pCloudLibrary := v }, loc)
  | .caller => (s, v)

/-- Body of `gfnFreeCloudLibrary`. -/
def gfnFreeCloudLibrary (pCloudLibrary : Option GfnSdkCloudLibrary) (s : State) : State :=
  match pCloudLibrary with
  | none => s
  | some lib =>
    let s1 := match lib.handle with
      | some h => s.emit (Event.FreeLibrary h)
      | none => s
    s1.emit Event.free

/-- Body of `gfnTranslateCloudStatus`: the cast `(GfnRuntimeError)status`. -/
def gfnTranslateCloudStatus (status : Int) : GfnRuntimeError := status

/-- Body of `gfnShutDownCloudOnlySdk`. -/
def gfnShutDownCloudOnlySdk (s : State) : Result GfnRuntimeError :=
  match s.g_pCloudLibrary with
  | some lib =>
    let s1 := match lib.ShutdownRuntimeSdk with
      | some f => s.emit (Event.call f [])
      | none => s
    let s2 := gfnFreeCloudLibrary s1.g_pCloudLibrary s1
    .ok (gfnSuccess, { s2 with g_pCloudLibrary := none, g_cloudLibraryStatus := gfnAPINotInit })
  | none => .ok (gfnSuccess, s)

/-- The table filled in by `gfnLoadCloudLibrary` from a freshly loaded module. -/
def resolveCloudLibrary (w : World) (library : HMODULE) : GfnSdkCloudLibrary :=
  { handle := some library
    InitializeRuntimeSdk := w.GetProcAddress library "gfnInitializeRuntimeSdk"
    ShutdownRuntimeSdk := w.GetProcAddress library "gfnShutdownRuntimeSdk"
    IsInitialized := w.GetProcAddress library "gfnIsInitialized"
    IsRunningInCloud := w.GetProcAddress library "gfnIsRunningInCloud"
    IsRunningInCloudSecure := w.GetProcAddress library "gfnIsRunningInCloudSecure"
    IsTitleAvailable := w.GetProcAddress library "gfnIsTitleAvailable"
    GetTitlesAvailable := w.GetProcAddress library "gfnGetTitlesAvailable"
    SetupTitle := w.GetProcAddress library "gfnSetupTitle"
    TitleExited := w.GetProcAddress library "gfnTitleExited"
    GetClientIp := w.GetProcAddress library "gfnGetClientIp"
    GetClientLanguageCode := w.GetProcAddress library "gfnGetClientLanguageCode"
    GetClientCountryCode := w.GetProcAddress library "gfnGetClientCountryCode"
    GetCustomData := w.GetProcAddress library "gfnGetCustomData"
    GetAuthData := w.GetProcAddress library "gfnGetAuthData"
    Free := w.GetProcAddress library "gfnFree"
    AppReady := w.GetProcAddress library "gfnAppReady"
    RegisterExitCallback := w.GetProcAddress library "gfnRegisterExitCallback"
    RegisterPauseCallback := w.GetProcAddress library "gfnRegisterPauseCallback"
    RegisterInstallCallback := w.GetProcAddress library "gfnRegisterInstallCallback"
    RegisterSaveCallback := w.GetProcAddress library "gfnRegisterSaveCallback"
    RegisterSessionInitCallback := w.GetProcAddress library "gfnRegisterSessionInitCallback" }

/-- Body of `gfnLoadCloudLibrary`. The result is the status, the state after,
and the value of the caller's variable after (`loc` before); the variable is
only touched when `pp` is `LibRef.caller`. -/
def gfnLoadCloudLibrary (w : World) (pp : LibRef) (s : State)
    (loc : Option GfnSdkCloudLibrary) : GfnRuntimeError × State × Option GfnSdkCloudLibrary :=
  -- *ppCloudLibrary = NULL;
  let (s0, loc0) := pp.assign none s loc
  if s0.g_cloudLibraryStatus ≠ gfnAPINotInit then
    -- *ppCloudLibrary = g_pCloudLibrary; return g_cloudLibraryStatus;
    let (s1, loc1) := pp.assign s0.g_pCloudLibrary s0 loc0
    (s1.g_cloudLibraryStatus, s1, loc1)
  else
    let s1 := s0.emit Event.PathFileExistsW
    if w.PathFileExistsW s0.trace = false then
      (gfnInitSuccessClientOnly, s1, loc0)
    else
      let s2 := s1.emit Event.LoadCloudLibrary
      match w.gfnSecureLoadCloudLibraryW s1.trace with
      | none => (gfnCallWrongEnvironment, s2, loc0)
      | some library =>
        let s3 := s2.emit Event.malloc
        if w.malloc s2.trace = false then
          (gfnUnableToAllocateMemory, s3, loc0)
        else
          let pCloudLibrary := resolveCloudLibrary w library
          if pCloudLibrary.InitializeRuntimeSdk = none then
            (gfnAPINotFound, gfnFreeCloudLibrary (some pCloudLibrary) s3, loc0)
          else
            let (s4, loc4) := pp.assign (some pCloudLibrary) s3 loc0
            (gfnSuccess, s4, loc4)

/-- Body of `gfnInitializeCloudOnlySdk`. -/
def gfnInitializeCloudOnlySdk (w : World) (s : State) : Result GfnRuntimeError :=
  -- g_cloudLibraryStatus = gfnLoadCloudLibrary(&g_pCloudLibrary);
  let (status, s1, _) := gfnLoadCloudLibrary w LibRef.global s none
  let s2 := { s1 with g_cloudLibraryStatus := status }
  if s2.g_cloudLibraryStatus ≠ gfnSuccess then
    .ok (s2.g_cloudLibraryStatus, s2)
  else
    -- g_pCloudLibrary->InitializeRuntimeSdk()
    match s2.g_pCloudLibrary with
    | none => .error Fault.nullDeref
    | some lib =>
      match lib.InitializeRuntimeSdk with
      | none => .error Fault.nullCall
      | some f =>
        .ok (gfnTranslateCloudStatus (w.retStatus f [] s2.trace), s2.emit (Event.call f []))

/-- Body of `gfnCloudOnlySdkIsInitialized`. -/
def gfnCloudOnlySdkIsInitialized (w : World) (s : State) : Result Bool :=
  let (status, s1, _) := gfnLoadCloudLibrary w LibRef.global s none
  let s2 := { s1 with g_cloudLibraryStatus := status }
  -- g_pCloudLibrary && g_pCloudLibrary->IsInitialized != NULL && g_pCloudLibrary->IsInitialized()
  match s2.g_pCloudLibrary with
  | none => .ok (false, s2)
  | some lib =>
    match lib.IsInitialized with
    | none => .ok (false, s2)
    | some f => .ok (w.retBool f [] s2.trace, s2.emit (Event.call f []))

/-! ## The gate macros -/

/-- Macro `CHECK_NULL_PARAM(param)`; `k` is the rest of the function body. -/
def CHECK_NULL_PARAM (param : Ptr) (s : State) (k : Result GfnRuntimeError) :
    Result GfnRuntimeError :=
  if param = 0 then .ok (gfnInvalidParameter, s) else k

/-- Macro `CHECK_CLOUD_ENVIRONMENT()`; `k` is the rest of the function body,
run in the state after the `IsRunningInCloud` call. -/
def CHECK_CLOUD_ENVIRONMENT (w : World) (s : State) (k : State → Result GfnRuntimeError) :
    Result GfnRuntimeError :=
  match s.g_pCloudLibrary with
  | none => .ok (gfnDllNotPresent, s)
  | some lib =>
    match lib.IsRunningInCloud with
    | none => .ok (gfnCallWrongEnvironment, s)
    | some f =>
      let s1 := s.emit (Event.call f [])
      if w.retBool f [] s.trace = false then .ok (gfnCallWrongEnvironment, s1) else k s1

/-- Macro `CHECK_CLOUD_API_AVAILABLE(Fn)`: reads `g_pCloudLibrary->Fn`; `k` is
the rest of the function body and receives the non-null function pointer. -/
def CHECK_CLOUD_API_AVAILABLE (Fn : GfnSdkCloudLibrary → Option FnPtr) (s : State)
    (k : FnPtr → Result GfnRuntimeError) : Result GfnRuntimeError :=
  match s.g_pCloudLibrary with
  | none => .error Fault.nullDeref
  | some lib =>
    match Fn lib with
    | none => .ok (gfnAPINotFound, s)
    | some f => k f

/-- Macro `DELEGATE_TO_CLOUD_LIBRARY(Fn, ...)`. -/
def DELEGATE_TO_CLOUD_LIBRARY (w : World) (Fn : GfnSdkCloudLibrary → Option FnPtr)
    (args : List Arg) (s : State) : Result GfnRuntimeError :=
  CHECK_CLOUD_API_AVAILABLE Fn s fun f =>
    .ok (gfnTranslateCloudStatus (w.retStatus f args s.trace), s.emit (Event.call f args))

/-! ## Initialise and shut down -/

/-- Body of `GfnInitializeSdk`. -/
def GfnInitializeSdk (w : World) (language : Int) (dllPath : Ptr) (s : State) :
    Result GfnRuntimeError :=
  match gfnInitializeCloudOnlySdk w s with
  | .error e => .error e
  | .ok (cloudStatus, s1) =>
    match s1.g_gfnSdkModule with
    | some _ => .ok (gfnSuccess, s1)
    | none =>
      -- g_gfnSdkModule = gfnSecureLoadClientLibraryW(dllPath, 0);
      let s2 := { s1.emit (Event.LoadClientLibrary dllPath) with
                  g_gfnSdkModule := w.gfnSecureLoadClientLibraryW dllPath s1.trace }
      let (clientStatus, s3) : GfnRuntimeError × State :=
        match s2.g_gfnSdkModule with
        | none => (gfnDllNotPresent, s2)
        | some m =>
          match w.GetProcAddress m "gfnInitializeRuntimeSdk" with
          | none => (gfnAPINotFound, s2)
          | some f =>
            (w.retStatus f [Arg.int language] s2.trace, s2.emit (Event.call f [Arg.int language]))
      if cloudStatus = gfnInitSuccessClientOnly then .ok (clientStatus, s3)
      else .ok (cloudStatus, s3)

/-- Body of `GfnShutdownSdk`. -/
def GfnShutdownSdk (w : World) (s : State) : Result GfnRuntimeError :=
  match gfnShutDownCloudOnlySdk s with
  | .error e => .error e
  | .ok (_, s1) =>
    match s1.g_gfnSdkModule with
    | none => .ok (gfnSuccess, s1)
    | some m =>
      match w.GetProcAddress m "gfnShutdownRuntimeSdk" with
      | none => .ok (gfnAPINotFound, s1)
      | some f => .ok (gfnSuccess, s1.emit (Event.call f []))

/-! ## Environment queries -/

/-- Body of `GfnIsRunningInCloud`. -/
def GfnIsRunningInCloud (w : World) (runningInCloud : Ptr) (s : State) :
    Result GfnRuntimeError :=
  CHECK_NULL_PARAM runningInCloud s <|
  let s1 := s.store runningInCloud 0
  match s1.g_pCloudLibrary with
  | none => .ok (gfnSuccess, s1)
  | some lib =>
    match lib.IsRunningInCloud with
    | none => .ok (gfnAPINotFound, s1)
    | some f =>
      let r := w.retBool f [] s1.trace
      .ok (gfnSuccess, (s1.emit (Event.call f [])).store runningInCloud (if r then 1 else 0))

/-- Body of `GfnIsRunningInCloudSecure`. The guard tests `IsRunningInCloud`,
the call goes through `IsRunningInCloudSecure`. -/
def GfnIsRunningInCloudSecure (w : World) (assurance : Ptr) (s : State) :
    Result GfnRuntimeError :=
  CHECK_NULL_PARAM assurance s <|
  let s1 := s.store assurance gfnNotCloud
  match s1.g_pCloudLibrary with
  | none => .ok (gfnSuccess, s1)
  | some lib =>
    match lib.IsRunningInCloud with
    | none => .ok (gfnAPINotFound, s1)
    | some _ =>
      match lib.IsRunningInCloudSecure with
      | none => .error Fault.nullCall
      | some f =>
        .ok (gfnTranslateCloudStatus (w.retStatus f [Arg.ptr assurance] s1.trace),
             s1.emit (Event.call f [Arg.ptr assurance]))

/-! ## Cloud-gated operations -/

/-- Body of `GfnFree`. -/
def GfnFree (w : World) (data : Ptr) (s : State) : Result GfnRuntimeError :=
  CHECK_NULL_PARAM data s <|
  CHECK_CLOUD_ENVIRONMENT w s fun s1 =>
  DELEGATE_TO_CLOUD_LIBRARY w (·.Free) [Arg.ptr data] s1

/-- Body of `GfnGetClientIpV4`. -/
def GfnGetClientIpV4 (w : World) (clientIp : Ptr) (s : State) : Result GfnRuntimeError :=
  CHECK_NULL_PARAM clientIp s <|
  CHECK_CLOUD_ENVIRONMENT w s fun s1 =>
  DELEGATE_TO_CLOUD_LIBRARY w (·.GetClientIp) [Arg.ptr clientIp] s1

/-- Body of `GfnGetClientLanguageCode`. -/
def GfnGetClientLanguageCode (w : World) (languageCode : Ptr) (s : State) :
    Result GfnRuntimeError :=
  CHECK_NULL_PARAM languageCode s <|
  CHECK_CLOUD_ENVIRONMENT w s fun s1 =>
  DELEGATE_TO_CLOUD_LIBRARY w (·.GetClientLanguageCode) [Arg.ptr languageCode] s1

/-- Body of `GfnGetClientCountryCode`. -/
def GfnGetClientCountryCode (w : World) (countryCode : Ptr) (length : Nat) (s : State) :
    Result GfnRuntimeError :=
  CHECK_NULL_PARAM countryCode s <|
  CHECK_CLOUD_ENVIRONMENT w s fun s1 =>
  DELEGATE_TO_CLOUD_LIBRARY w (·.GetClientCountryCode) [Arg.ptr countryCode, Arg.uint length] s1

/-- Body of `GfnGetCustomData`. -/
def GfnGetCustomData (w : World) (customData : Ptr) (s : State) : Result GfnRuntimeError :=
  CHECK_NULL_PARAM customData s <|
  CHECK_CLOUD_ENVIRONMENT w s fun s1 =>
  DELEGATE_TO_CLOUD_LIBRARY w (·.GetCustomData) [Arg.ptr customData] s1

/-- Body of `GfnGetAuthData`. -/
def GfnGetAuthData (w : World) (authData : Ptr) (s : State) : Result GfnRuntimeError :=
  CHECK_NULL_PARAM authData s <|
  CHECK_CLOUD_ENVIRONMENT w s fun s1 =>
  DELEGATE_TO_CLOUD_LIBRARY w (·.GetAuthData) [Arg.ptr authData] s1

/-- Body of `GfnIsTitleAvailable`. -/
def GfnIsTitleAvailable (w : World) (platformAppId isAvailable : Ptr) (s : State) :
    Result GfnRuntimeError :=
  CHECK_NULL_PARAM isAvailable s <|
  let s0 := s.store isAvailable 0
  CHECK_NULL_PARAM platformAppId s0 <|
  CHECK_CLOUD_ENVIRONMENT w s0 fun s1 =>
  CHECK_CLOUD_API_AVAILABLE (·.IsTitleAvailable) s1 fun f =>
    let r := w.retBool f [Arg.ptr platformAppId] s1.trace
    .ok (gfnSuccess,
      (s1.emit (Event.call f [Arg.ptr platformAppId])).store isAvailable (if r then 1 else 0))

/-- Body of `GfnGetTitlesAvailable`. -/
def GfnGetTitlesAvailable (w : World) (platformAppIds : Ptr) (s : State) :
    Result GfnRuntimeError :=
  CHECK_NULL_PARAM platformAppIds s <|
  CHECK_CLOUD_ENVIRONMENT w s fun s1 =>
  DELEGATE_TO_CLOUD_LIBRARY w (·.GetTitlesAvailable) [Arg.ptr platformAppIds] s1

/-- Body of `GfnSetupTitle`. -/
def GfnSetupTitle (w : World) (platformAppId : Ptr) (s : State) : Result GfnRuntimeError :=
  CHECK_NULL_PARAM platformAppId s <|
  CHECK_CLOUD_ENVIRONMENT w s fun s1 =>
  DELEGATE_TO_CLOUD_LIBRARY w (·.SetupTitle) [Arg.ptr platformAppId] s1

/-- Body of `GfnAppReady`. -/
def GfnAppReady (w : World) (success : Bool) (status : Ptr) (s : State) :
    Result GfnRuntimeError :=
  CHECK_CLOUD_ENVIRONMENT w s fun s1 =>
  DELEGATE_TO_CLOUD_LIBRARY w (·.AppReady) [Arg.bool success, Arg.ptr status] s1

/-! ## Client library operations -/

/-- Body of `GfnRegisterStreamStatusCallback`. -/
def GfnRegisterStreamStatusCallback (w : World) (streamStatusCallback userContext : Ptr)
    (s : State) : Result GfnRuntimeError :=
  match s.g_gfnSdkModule with
  | none => .ok (gfnAPINotInit, s)
  | some m =>
    match w.GetProcAddress m "gfnRegisterStreamStatusCallback" with
    | none => .ok (gfnAPINotFound, s)
    | some f =>
      .ok (w.retStatus f [Arg.ptr streamStatusCallback, Arg.ptr userContext] s.trace,
           s.emit (Event.call f [Arg.ptr streamStatusCallback, Arg.ptr userContext]))

/-- Body of `GfnStartStream`. -/
def GfnStartStream (w : World) (startStreamInput response : Ptr) (s : State) :
    Result GfnRuntimeError :=
  match s.g_gfnSdkModule with
  | none => .ok (gfnAPINotInit, s)
  | some m =>
    match w.GetProcAddress m "gfnStartStream" with
    | none => .ok (gfnAPINotFound, s)
    | some f =>
      .ok (w.retStatus f [Arg.ptr startStreamInput, Arg.ptr response] s.trace,
           s.emit (Event.call f [Arg.ptr startStreamInput, Arg.ptr response]))

/-- Body of `GfnStartStreamAsync`. -/
def GfnStartStreamAsync (w : World) (startStreamInput cb context : Ptr) (timeoutMs : Nat)
    (s : State) : Result GfnRuntimeError :=
  match s.g_gfnSdkModule with
  | none => .ok (gfnAPINotInit, s)
  | some m =>
    match w.GetProcAddress m "gfnStartStreamAsync" with
    | none => .ok (gfnAPINotFound, s)
    | some f =>
      .ok (gfnSuccess,
           s.emit (Event.call f
             [Arg.ptr startStreamInput, Arg.ptr cb, Arg.ptr context, Arg.uint timeoutMs]))

/-- Body of `GfnStopStream`. -/
def GfnStopStream (w : World) (s : State) : Result GfnRuntimeError :=
  match s.g_gfnSdkModule with
  | none => .ok (gfnAPINotInit, s)
  | some m =>
    match w.GetProcAddress m "gfnStopStream" with
    | none => .ok (gfnAPINotFound, s)
    | some f => .ok (w.retStatus f [] s.trace, s.emit (Event.call f []))

/-- Body of `GfnStopStreamAsync`. -/
def GfnStopStreamAsync (w : World) (cb context : Ptr) (timeoutMs : Nat) (s : State) :
    Result GfnRuntimeError :=
  match s.g_gfnSdkModule with
  | none => .ok (gfnAPINotInit, s)
  | some m =>
    match w.GetProcAddress m "gfnStopStreamAsync" with
    | none => .ok (gfnAPINotFound, s)
    | some f =>
      .ok (gfnSuccess,
           s.emit (Event.call f [Arg.ptr cb, Arg.ptr context, Arg.uint timeoutMs]))

/-- Body of `GfnTitleExited`. -/
def GfnTitleExited (w : World) (platformId platformAppId : Ptr) (s : State) :
    Result GfnRuntimeError :=
  match s.g_gfnSdkModule with
  | none => .ok (gfnAPINotInit, s)
  | some m =>
    match w.GetProcAddress m "gfnTitleExited" with
    | none => .ok (gfnAPINotFound, s)
    | some f =>
      .ok (w.retStatus f [Arg.ptr platformId, Arg.ptr platformAppId] s.trace,
           s.emit (Event.call f [Arg.ptr platformId, Arg.ptr platformAppId]))

/-! ## Callback bridge -/

/-- The three statements shared by the five registrations: `malloc` of the
record, then the writes of `fnCallback` and `pOrigUserContext` through the
returned pointer. The result of `malloc` is not tested, so the writes go
through a null pointer when the allocation fails. `k` is the rest of the
function body and receives the filled record. -/
def allocWrappedContext (w : World) (fnCallback pOrigUserContext : Ptr) (s : State)
    (k : _gfnUserContextCallbackWrapper → State → Result GfnRuntimeError) :
    Result GfnRuntimeError :=
  if w.malloc s.trace = false then .error Fault.nullDeref
  else k { fnCallback := fnCallback, pOrigUserContext := pOrigUserContext }
         (s.emit Event.malloc)

/-- Body of `_gfnExitCallbackWrapper`. -/
def _gfnExitCallbackWrapper (_status : Int) (_pUnused : Ptr)
    (pContext : Option _gfnUserContextCallbackWrapper) (s : State) : State :=
  match pContext with
  | none => s
  | some pWrappedContext =>
    if pWrappedContext.fnCallback = 0 then s
    else s.emit (Event.userCallback pWrappedContext.fnCallback
                  [Arg.ptr pWrappedContext.pOrigUserContext])

/-- Body of `GfnRegisterExitCallback`. -/
def GfnRegisterExitCallback (w : World) (exitCallback pUserContext : Ptr) (s : State) :
    Result GfnRuntimeError :=
  CHECK_NULL_PARAM exitCallback s <|
  CHECK_CLOUD_ENVIRONMENT w s fun s1 =>
  allocWrappedContext w exitCallback pUserContext s1 fun pWrappedContext s2 =>
  DELEGATE_TO_CLOUD_LIBRARY w (·.RegisterExitCallback)
    [Arg.trampoline CallbackKind.Exit, Arg.wrapped pWrappedContext] s2

/-- Body of `_gfnPauseCallbackWrapper`. -/
def _gfnPauseCallbackWrapper (_status : Int) (_pUnused : Ptr)
    (pContext : Option _gfnUserContextCallbackWrapper) (s : State) : State :=
  match pContext with
  | none => s
  | some pWrappedContext =>
    if pWrappedContext.fnCallback = 0 then s
    else s.emit (Event.userCallback pWrappedContext.fnCallback
                  [Arg.ptr pWrappedContext.pOrigUserContext])

/-- Body of `GfnRegisterPauseCallback`. -/
def GfnRegisterPauseCallback (w : World) (pauseCallback pUserContext : Ptr) (s : State) :
    Result GfnRuntimeError :=
  CHECK_NULL_PARAM pauseCallback s <|
  CHECK_CLOUD_ENVIRONMENT w s fun s1 =>
  allocWrappedContext w pauseCallback pUserContext s1 fun pWrappedContext s2 =>
  DELEGATE_TO_CLOUD_LIBRARY w (·.RegisterPauseCallback)
    [Arg.trampoline CallbackKind.Pause, Arg.wrapped pWrappedContext] s2

/-- Body of `_gfnInstallCallbackWrapper`. -/
def _gfnInstallCallbackWrapper (_status : Int) (pTitleInstallationInformation : Ptr)
    (pContext : Option _gfnUserContextCallbackWrapper) (s : State) : State :=
  match pContext with
  | none => s
  | some pWrappedContext =>
    if pWrappedContext.fnCallback = 0 then s
    else s.emit (Event.userCallback pWrappedContext.fnCallback
                  [Arg.ptr pTitleInstallationInformation,
                   Arg.ptr pWrappedContext.pOrigUserContext])

/-- Body of `GfnRegisterInstallCallback`. -/
def GfnRegisterInstallCallback (w : World) (installCallback pUserContext : Ptr) (s : State) :
    Result GfnRuntimeError :=
  CHECK_NULL_PARAM installCallback s <|
  CHECK_CLOUD_ENVIRONMENT w s fun s1 =>
  allocWrappedContext w installCallback pUserContext s1 fun pWrappedContext s2 =>
  DELEGATE_TO_CLOUD_LIBRARY w (·.RegisterInstallCallback)
    [Arg.trampoline CallbackKind.Install, Arg.wrapped pWrappedContext] s2

/-- Body of `_gfnSaveCallbackWrapper`. -/
def _gfnSaveCallbackWrapper (_status : Int) (_pUnused : Ptr)
    (pContext : Option _gfnUserContextCallbackWrapper) (s : State) : State :=
  match pContext with
  | none => s
  | some pWrappedContext =>
    if pWrappedContext.fnCallback = 0 then s
    else s.emit (Event.userCallback pWrappedContext.fnCallback
                  [Arg.ptr pWrappedContext.pOrigUserContext])

/-- Body of `GfnRegisterSaveCallback`. -/
def GfnRegisterSaveCallback (w : World) (saveCallback pUserContext : Ptr) (s : State) :
    Result GfnRuntimeError :=
  CHECK_NULL_PARAM saveCallback s <|
  CHECK_CLOUD_ENVIRONMENT w s fun s1 =>
  allocWrappedContext w saveCallback pUserContext s1 fun pWrappedContext s2 =>
  DELEGATE_TO_CLOUD_LIBRARY w (·.RegisterSaveCallback)
    [Arg.trampoline CallbackKind.Save, Arg.wrapped pWrappedContext] s2

/-- Body of `_gfnSessionInitCallbackWrapper`. -/
def _gfnSessionInitCallbackWrapper (_status : Int) (pCString : Ptr)
    (pContext : Option _gfnUserContextCallbackWrapper) (s : State) : State :=
  match pContext with
  | none => s
  | some pWrappedContext =>
    if pWrappedContext.fnCallback = 0 then s
    else s.emit (Event.userCallback pWrappedContext.fnCallback
                  [Arg.ptr pCString, Arg.ptr pWrappedContext.pOrigUserContext])

/-- Body of `GfnRegisterSessionInitCallback`. -/
def GfnRegisterSessionInitCallback (w : World) (sessionInitCallback pUserContext : Ptr)
    (s : State) : Result GfnRuntimeError :=
  CHECK_NULL_PARAM sessionInitCallback s <|
  CHECK_CLOUD_ENVIRONMENT w s fun s1 =>
  allocWrappedContext w sessionInitCallback pUserContext s1 fun pWrappedContext s2 =>
  DELEGATE_TO_CLOUD_LIBRARY w (·.RegisterSessionInitCallback)
    [Arg.trampoline CallbackKind.SessionInit, Arg.wrapped pWrappedContext] s2

/-! ## The public surface as data -/

/-- A call of one of the fifteen operations that go through
`CHECK_CLOUD_ENVIRONMENT`, with its arguments. -/
inductive CloudOp
  | GfnFree (data : Ptr)
  | GfnGetClientIpV4 (clientIp : Ptr)
  | GfnGetClientLanguageCode (languageCode : Ptr)
  | GfnGetClientCountryCode (countryCode : Ptr) (length : Nat)
  | GfnGetCustomData (customData : Ptr)
  | GfnGetAuthData (authData : Ptr)
  | GfnIsTitleAvailable (platformAppId isAvailable : Ptr)
  | GfnGetTitlesAvailable (platformAppIds : Ptr)
  | GfnSetupTitle (platformAppId : Ptr)
  | GfnAppReady (success : Bool) (status : Ptr)
  | GfnRegisterExitCallback (exitCallback pUserContext : Ptr)
  | GfnRegisterPauseCallback (pauseCallback pUserContext : Ptr)
  | GfnRegisterInstallCallback (installCallback pUserContext : Ptr)
  | GfnRegisterSaveCallback (saveCallback pUserContext : Ptr)
  | GfnRegisterSessionInitCallback (sessionInitCallback pUserContext : Ptr)
  deriving DecidableEq, Repr

/-- Run a cloud-gated call. -/
def CloudOp.run (w : World) : CloudOp → State → Result GfnRuntimeError
  | .GfnFree data => Gfn.GfnFree w data
  | .GfnGetClientIpV4 clientIp => Gfn.GfnGetClientIpV4 w clientIp
  | .GfnGetClientLanguageCode languageCode => Gfn.GfnGetClientLanguageCode w languageCode
  | .GfnGetClientCountryCode countryCode length =>
      Gfn.GfnGetClientCountryCode w countryCode length
  | .GfnGetCustomData customData => Gfn.GfnGetCustomData w customData
  | .GfnGetAuthData authData => Gfn.GfnGetAuthData w authData
  | .GfnIsTitleAvailable platformAppId isAvailable =>
      Gfn.GfnIsTitleAvailable w platformAppId isAvailable
  | .GfnGetTitlesAvailable platformAppIds => Gfn.GfnGetTitlesAvailable w platformAppIds
  | .GfnSetupTitle platformAppId => Gfn.GfnSetupTitle w platformAppId
  | .GfnAppReady success status => Gfn.GfnAppReady w success status
  | .GfnRegisterExitCallback cb ctx => Gfn.GfnRegisterExitCallback w cb ctx
  | .GfnRegisterPauseCallback cb ctx => Gfn.GfnRegisterPauseCallback w cb ctx
  | .GfnRegisterInstallCallback cb ctx => Gfn.GfnRegisterInstallCallback w cb ctx
  | .GfnRegisterSaveCallback cb ctx => Gfn.GfnRegisterSaveCallback w cb ctx
  | .GfnRegisterSessionInitCallback cb ctx => Gfn.GfnRegisterSessionInitCallback w cb ctx

/-- The pointer arguments of a cloud-gated call that must not be null. -/
def CloudOp.requiredPointers : CloudOp → List Ptr
  | .GfnFree data => [data]
  | .GfnGetClientIpV4 clientIp => [clientIp]
  | .GfnGetClientLanguageCode languageCode => [languageCode]
  | .GfnGetClientCountryCode countryCode _ => [countryCode]
  | .GfnGetCustomData customData => [customData]
  | .GfnGetAuthData authData => [authData]
  | .GfnIsTitleAvailable platformAppId isAvailable => [isAvailable, platformAppId]
  | .GfnGetTitlesAvailable platformAppIds => [platformAppIds]
  | .GfnSetupTitle platformAppId => [platformAppId]
  | .GfnAppReady _ _ => []
  | .GfnRegisterExitCallback cb _ => [cb]
  | .GfnRegisterPauseCallback cb _ => [cb]
  | .GfnRegisterInstallCallback cb _ => [cb]
  | .GfnRegisterSaveCallback cb _ => [cb]
  | .GfnRegisterSessionInitCallback cb _ => [cb]

/-- The entry of the resolved table that a cloud-gated call needs. -/
def CloudOp.entry : CloudOp → GfnSdkCloudLibrary → Option FnPtr
  | .GfnFree _ => (·.Free)
  | .GfnGetClientIpV4 _ => (·.GetClientIp)
  | .GfnGetClientLanguageCode _ => (·.GetClientLanguageCode)
  | .GfnGetClientCountryCode _ _ => (·.GetClientCountryCode)
  | .GfnGetCustomData _ => (·.GetCustomData)
  | .GfnGetAuthData _ => (·.GetAuthData)
  | .GfnIsTitleAvailable _ _ => (·.IsTitleAvailable)
  | .GfnGetTitlesAvailable _ => (·.GetTitlesAvailable)
  | .GfnSetupTitle _ => (·.SetupTitle)
  | .GfnAppReady _ _ => (·.AppReady)
  | .GfnRegisterExitCallback _ _ => (·.RegisterExitCallback)
  | .GfnRegisterPauseCallback _ _ => (·.RegisterPauseCallback)
  | .GfnRegisterInstallCallback _ _ => (·.RegisterInstallCallback)
  | .GfnRegisterSaveCallback _ _ => (·.RegisterSaveCallback)
  | .GfnRegisterSessionInitCallback _ _ => (·.RegisterSessionInitCallback)

/-- Whether the call is one of the five bridged registrations. -/
def CloudOp.isRegistration : CloudOp → Bool
  | .GfnRegisterExitCallback _ _ => true
  | .GfnRegisterPauseCallback _ _ => true
  | .GfnRegisterInstallCallback _ _ => true
  | .GfnRegisterSaveCallback _ _ => true
  | .GfnRegisterSessionInitCallback _ _ => true
  | _ => false

/-- The caller's argument list of the nine purely delegating cloud calls;
`none` for `GfnIsTitleAvailable` and the registrations. -/
def CloudOp.callerArgs : CloudOp → Option (List Arg)
  | .GfnFree data => some [Arg.ptr data]
  | .GfnGetClientIpV4 clientIp => some [Arg.ptr clientIp]
  | .GfnGetClientLanguageCode languageCode => some [Arg.ptr languageCode]
  | .GfnGetClientCountryCode countryCode length => some [Arg.ptr countryCode, Arg.uint length]
  | .GfnGetCustomData customData => some [Arg.ptr customData]
  | .GfnGetAuthData authData => some [Arg.ptr authData]
  | .GfnGetTitlesAvailable platformAppIds => some [Arg.ptr platformAppIds]
  | .GfnSetupTitle platformAppId => some [Arg.ptr platformAppId]
  | .GfnAppReady success status => some [Arg.bool success, Arg.ptr status]
  | _ => none

/-- A call of one of the six operations that talk to the client library. -/
inductive ClientOp
  | GfnRegisterStreamStatusCallback (streamStatusCallback userContext : Ptr)
  | GfnStartStream (startStreamInput response : Ptr)
  | GfnStartStreamAsync (startStreamInput cb context : Ptr) (timeoutMs : Nat)
  | GfnStopStream
  | GfnStopStreamAsync (cb context : Ptr) (timeoutMs : Nat)
  | GfnTitleExited (platformId platformAppId : Ptr)
  deriving DecidableEq, Repr

/-- Run a client library call. -/
def ClientOp.run (w : World) : ClientOp → State → Result GfnRuntimeError
  | .GfnRegisterStreamStatusCallback cb ctx => Gfn.GfnRegisterStreamStatusCallback w cb ctx
  | .GfnStartStream input response => Gfn.GfnStartStream w input response
  | .GfnStartStreamAsync input cb ctx t => Gfn.GfnStartStreamAsync w input cb ctx t
  | .GfnStopStream => Gfn.GfnStopStream w
  | .GfnStopStreamAsync cb ctx t => Gfn.GfnStopStreamAsync w cb ctx t
  | .GfnTitleExited platformId platformAppId => Gfn.GfnTitleExited w platformId platformAppId

/-- The exported symbol a client library call looks up. -/
def ClientOp.symbol : ClientOp → String
  | .GfnRegisterStreamStatusCallback _ _ => "gfnRegisterStreamStatusCallback"
  | .GfnStartStream _ _ => "gfnStartStream"
  | .GfnStartStreamAsync _ _ _ _ => "gfnStartStreamAsync"
  | .GfnStopStream => "gfnStopStream"
  | .GfnStopStreamAsync _ _ _ => "gfnStopStreamAsync"
  | .GfnTitleExited _ _ => "gfnTitleExited"

/-- The caller's argument list of a client library call. -/
def ClientOp.callerArgs : ClientOp → List Arg
  | .GfnRegisterStreamStatusCallback cb ctx => [Arg.ptr cb, Arg.ptr ctx]
  | .GfnStartStream input response => [Arg.ptr input, Arg.ptr response]
  | .GfnStartStreamAsync input cb ctx t => [Arg.ptr input, Arg.ptr cb, Arg.ptr ctx, Arg.uint t]
  | .GfnStopStream => []
  | .GfnStopStreamAsync cb ctx t => [Arg.ptr cb, Arg.ptr ctx, Arg.uint t]
  | .GfnTitleExited platformId platformAppId => [Arg.ptr platformId, Arg.ptr platformAppId]

/-- Whether the client library function returns `void` (the two "Async" calls). -/
def ClientOp.isAsync : ClientOp → Bool
  | .GfnStartStreamAsync _ _ _ _ => true
  | .GfnStopStreamAsync _ _ _ => true
  | _ => false

/-- The trampoline of a callback kind. -/
def trampolineOf : CallbackKind →
    Int → Ptr → Option _gfnUserContextCallbackWrapper → State → State
  | .Exit => _gfnExitCallbackWrapper
  | .Pause => _gfnPauseCallbackWrapper
  | .Install => _gfnInstallCallbackWrapper
  | .Save => _gfnSaveCallbackWrapper
  | .SessionInit => _gfnSessionInitCallbackWrapper

/-- Any entry into the translation unit: every function with external linkage,
and the five trampolines (entered by the cloud library). -/
inductive Op
  | cloud (o : CloudOp)
  | client (o : ClientOp)
  | GfnIsRunningInCloud (runningInCloud : Ptr)
  | GfnIsRunningInCloudSecure (assurance : Ptr)
  | GfnInitializeSdk (language : Int) (dllPath : Ptr)
  | GfnShutdownSdk
  | gfnShutDownCloudOnlySdk
  | gfnLoadCloudLibrary (pp : LibRef)
  | gfnInitializeCloudOnlySdk
  | gfnCloudOnlySdkIsInitialized
  | trampoline (k : CallbackKind) (status : Int) (payload : Ptr)
      (pContext : Option _gfnUserContextCallbackWrapper)
  deriving DecidableEq, Repr

/-- Whether the entry is `GfnInitializeSdk`. -/
def Op.isGfnInitializeSdk : Op → Bool
  | .GfnInitializeSdk _ _ => true
  | _ => false

/-- The state after one entry (the returned value is dropped), or the fault. -/
def Op.exec (w : World) : Op → State → Except Fault State
  | .cloud o, s => (o.run w s).map (·.2)
  | .client o, s => (o.run w s).map (·.2)
  | .GfnIsRunningInCloud p, s => (Gfn.GfnIsRunningInCloud w p s).map (·.2)
  | .GfnIsRunningInCloudSecure p, s => (Gfn.GfnIsRunningInCloudSecure w p s).map (·.2)
  | .GfnInitializeSdk language dllPath, s => (Gfn.GfnInitializeSdk w language dllPath s).map (·.2)
  | .GfnShutdownSdk, s => (Gfn.GfnShutdownSdk w s).map (·.2)
  | .gfnShutDownCloudOnlySdk, s => (Gfn.gfnShutDownCloudOnlySdk s).map (·.2)
  | .gfnLoadCloudLibrary pp, s => .ok (Gfn.gfnLoadCloudLibrary w pp s none).2.1
  | .gfnInitializeCloudOnlySdk, s => (Gfn.gfnInitializeCloudOnlySdk w s).map (·.2)
  | .gfnCloudOnlySdkIsInitialized, s => (Gfn.gfnCloudOnlySdkIsInitialized w s).map (·.2)
  | .trampoline k status payload pContext, s => .ok (trampolineOf k status payload pContext s)

/-- Run a sequence of entries from a state; stops at the first fault. -/
def runOps (w : World) : List Op → State → Except Fault State
  | [], s => .ok s
  | op :: ops, s =>
    match op.exec w s with
    | .error e => .error e
    | .ok s1 => runOps w ops s1

/-! ## Example machines -/

/-- A machine whose answers do not change over time: the cloud file exists
iff `cloud` is a handle, the cloud load gives `cloud`, every client load gives
`client`, `malloc` succeeds iff `mallocOk`, the exports are `syms`, a status
function at address `f` returns `status f`, and a `bool` function returns `flag`. -/
def World.steady (cloud client : Option HMODULE) (mallocOk : Bool)
    (syms : HMODULE → String → Option FnPtr) (status : FnPtr → Int) (flag : Bool) : World :=
  { PathFileExistsW := fun _ => cloud.isSome
    gfnSecureLoadCloudLibraryW := fun _ => cloud
    gfnSecureLoadClientLibraryW := fun _ _ => client
    malloc := fun _ => mallocOk
    GetProcAddress := syms
    retStatus := fun f _ _ => status f
    retBool := fun _ _ _ => flag }

/-- A cloud library table with only `handle`, `InitializeRuntimeSdk` (address 1)
and `IsRunningInCloud` (address 2) resolved. -/
def bareLibrary : GfnSdkCloudLibrary :=
  { handle := some 7, InitializeRuntimeSdk := some 1, ShutdownRuntimeSdk := none,
    IsInitialized := none, IsRunningInCloud := some 2, IsRunningInCloudSecure := none,
    RegisterExitCallback := none, RegisterSaveCallback := none,
    RegisterSessionInitCallback := none, RegisterPauseCallback := none,
    RegisterInstallCallback := none, IsTitleAvailable := none, GetTitlesAvailable := none,
    SetupTitle := none, TitleExited := none, GetClientIp := none,
    GetClientLanguageCode := none, GetClientCountryCode := none, GetCustomData := none,
    GetAuthData := none, Free := none, AppReady := none }

/-- A process state after a successful cloud load that resolved `bareLibrary`. -/
def bareCloudState : State :=
  { g_gfnSdkModule := none, g_pCloudLibrary := some bareLibrary,
    g_cloudLibraryStatus := gfnSuccess, trace := [], stores := [] }

/-- The state `bareCloudState` with `GetClientCountryCode` resolved at address 3. -/
def countryCloudState : State :=
  { bareCloudState with
    g_pCloudLibrary := some { bareLibrary with GetClientCountryCode := some 3 } }

/-! ## Predicates used by the frame lemmas -/

/-- The three globals of `b` are those of `a`. -/
def State.sameGlobals (a b : State) : Prop :=
  b.g_gfnSdkModule = a.g_gfnSdkModule ∧ b.g_pCloudLibrary = a.g_pCloudLibrary ∧
    b.g_cloudLibraryStatus = a.g_cloudLibraryStatus

/-- A result that, when it is not a fault, ends in a state satisfying `P`. -/
def Result.EndsIn {α : Type} (P : State → Prop) : Result α → Prop
  | .ok (_, s) => P s
  | .error _ => True

/-! ## The statuses the initialisation claims speak of -/

/-- The cloud side's status of a first initialisation on a machine where the
cloud file exists, in the words of the claim: the load failure status if
loading fails (load rejected, no memory, no `gfnInitializeRuntimeSdk` symbol),
otherwise the value returned by the cloud library's `InitializeRuntimeSdk`.
`t` is the trace when `GfnInitializeSdk` is entered. -/
def cloudSideStatus (w : World) (t : Trace) : GfnRuntimeError :=
  match w.gfnSecureLoadCloudLibraryW (t ++ [Event.PathFileExistsW]) with
  | none => gfnCallWrongEnvironment
  | some library =>
    if w.malloc (t ++ [Event.PathFileExistsW, Event.LoadCloudLibrary]) = false then
      gfnUnableToAllocateMemory
    else
      match w.GetProcAddress library "gfnInitializeRuntimeSdk" with
      | none => gfnAPINotFound
      | some f =>
        w.retStatus f [] (t ++ [Event.PathFileExistsW, Event.LoadCloudLibrary, Event.malloc])

/-- The client library's own init status, in the words of the claim: the
value returned by the client's `gfnInitializeRuntimeSdk`, or `gfnDllNotPresent`
when the client library cannot be loaded, or `gfnAPINotFound` when it lacks
the init symbol. `t` is the trace when the client library is loaded. -/
def clientInitStatus (w : World) (language : Int) (dllPath : Ptr) (t : Trace) :
    GfnRuntimeError :=
  match w.gfnSecureLoadClientLibraryW dllPath t with
  | none => gfnDllNotPresent
  | some m =>
    match w.GetProcAddress m "gfnInitializeRuntimeSdk" with
    | none => gfnAPINotFound
    | some f => w.retStatus f [Arg.int language] (t ++ [Event.LoadClientLibrary dllPath])

/-- A cloud host: the cloud file exists and loads as module 7, the client
library loads as module 9, `malloc` succeeds, every symbol of either module
resolves (to address 1), every status function returns 0 (`gfnSuccess`) and
every `bool` function returns true. -/
def cloudHost : World :=
  World.steady (some 7) (some 9) true (fun _ _ => some 1) (fun _ => 0) true

/-- A client machine: no cloud file; the client library loads as module 9 and
exports every symbol (at address 1); its functions return 0 (`gfnSuccess`). -/
def clientMachine : World :=
  World.steady none (some 9) true (fun _ _ => some 1) (fun _ => 0) false

/-- A machine whose client library (module 9) exports only
`gfnInitializeRuntimeSdk` (address 1, returning 0); there is no cloud file. -/
def initOnlyClientMachine : World :=
  World.steady none (some 9) true
    (fun _ name => if name = "gfnInitializeRuntimeSdk" then some 1 else none)
    (fun _ => 0) false

/-- The status `GfnShutdownSdk` returns in state `s`: `gfnAPINotFound` when the
client module is loaded and does not export `gfnShutdownRuntimeSdk`,
`gfnSuccess` otherwise. -/
def shutdownStatus (w : World) (s : State) : GfnRuntimeError :=
  match s.g_gfnSdkModule with
  | none => gfnSuccess
  | some m =>
    match w.GetProcAddress m "gfnShutdownRuntimeSdk" with
    | none => gfnAPINotFound
    | some _ => gfnSuccess

/-! ## The resolver's outcome in the words of the spec -/

/-- The value of `*ppCloudLibrary`; `loc` is the caller's variable. -/
def LibRef.read (pp : LibRef) (s : State) (loc : Option GfnSdkCloudLibrary) :
    Option GfnSdkCloudLibrary :=
  match pp with
  | .global => s.g_pCloudLibrary
  | .caller => loc

/-- The library `gfnLoadCloudLibrary` hands back through `ppCloudLibrary`. -/
def outputLibrary (pp : LibRef) (r : GfnRuntimeError × State × Option GfnSdkCloudLibrary) :
    Option GfnSdkCloudLibrary :=
  pp.read r.2.1 r.2.2

/-- The result of a first resolution attempt, decided in the order the spec
gives: cloud file absent, load rejected, bookkeeping allocation fails,
mandatory `gfnInitializeRuntimeSdk` symbol missing, otherwise success. `t` is
the trace when the resolver is entered. -/
def firstResolutionStatus (w : World) (t : Trace) : GfnRuntimeError :=
  if w.PathFileExistsW t = false then gfnInitSuccessClientOnly
  else
    match w.gfnSecureLoadCloudLibraryW (t ++ [Event.PathFileExistsW]) with
    | none => gfnCallWrongEnvironment
    | some library =>
      if w.malloc (t ++ [Event.PathFileExistsW, Event.LoadCloudLibrary]) = false then
        gfnUnableToAllocateMemory
      else if (w.GetProcAddress library "gfnInitializeRuntimeSdk").isNone then gfnAPINotFound
      else gfnSuccess

/-! ## The callback kinds as data -/

/-- The registration call of a callback kind. -/
def CallbackKind.register : CallbackKind → Ptr → Ptr → CloudOp
  | .Exit => CloudOp.GfnRegisterExitCallback
  | .Pause => CloudOp.GfnRegisterPauseCallback
  | .Install => CloudOp.GfnRegisterInstallCallback
  | .Save => CloudOp.GfnRegisterSaveCallback
  | .SessionInit => CloudOp.GfnRegisterSessionInitCallback

/-- The arguments a trampoline of the kind hands to the user callback, given
the payload and the original context: the install and session-init callbacks
take the payload first, the exit, pause and save callbacks only the context. -/
def CallbackKind.callbackArgs : CallbackKind → Ptr → Ptr → List Arg
  | .Install, payload, context => [Arg.ptr payload, Arg.ptr context]
  | .SessionInit, payload, context => [Arg.ptr payload, Arg.ptr context]
  | _, _, context => [Arg.ptr context]

/-- The state `bareCloudState` with `RegisterExitCallback` resolved at address 4. -/
def exitCloudState : State :=
  { bareCloudState with
    g_pCloudLibrary := some { bareLibrary with RegisterExitCallback := some 4 } }

/-- A cloud host whose cloud library (module 7) exports every symbol (at
address 1) except `gfnIsRunningInCloudSecure`; the client library loads as
module 9, every status function returns 0 and every `bool` function true. -/
def olderCloudHost : World :=
  World.steady (some 7) (some 9) true
    (fun _ name => if name = "gfnIsRunningInCloudSecure" then none else some 1)
    (fun _ => 0) true

/-! ## Predicates used by the gate invariant -/

/-- A result that, when it is not a fault, has the trace of `s` as a prefix
of its trace. -/
def Result.Extends {α : Type} (s : State) : Result α → Prop
  | .ok (_, s') => ∃ rest, s'.trace = s.trace ++ rest
  | .error _ => True

/-- The gate invariant of a call started in `s`. A returning call either
touched nothing outside, or the library was loaded and the first thing
touched was its `IsRunningInCloud` entry `fr`, and anything at all was touched
after it (`rest`) only if `fr` returned true. A faulting call faulted after
the library was found loaded and `IsRunningInCloud` had returned true. -/
def GateInvariant {α : Type} (w : World) (s : State) : Result α → Prop
  | .ok (_, s') =>
    s'.trace = s.trace ∨
    ∃ lib fr rest, s.g_pCloudLibrary = some lib ∧ lib.IsRunningInCloud = some fr ∧
      s'.trace = s.trace ++ Event.call fr [] :: rest ∧
      (rest ≠ [] → w.retBool fr [] s.trace = true)
  | .error _ =>
    ∃ lib fr, s.g_pCloudLibrary = some lib ∧ lib.IsRunningInCloud = some fr ∧
      w.retBool fr [] s.trace = true

/-- A result that is not a fault. -/
def Result.Returns {α : Type} : Result α → Prop
  | .ok _ => True
  | .error _ => False

/-! ## The outputs of the two boolean queries, in the words of the claims -/

/-- Whether the cloud library is loaded, its `IsRunningInCloud` entry point is
resolved and that entry point, called on trace `t`, reports true. -/
def reportsRunningInCloud (w : World) (s : State) (t : Trace) : Bool :=
  match s.g_pCloudLibrary with
  | none => false
  | some lib =>
    match lib.IsRunningInCloud with
    | none => false
    | some f => w.retBool f [] t

/-- Whether the cloud library is loaded without an `IsRunningInCloud` entry. -/
def loadedWithoutIsRunningInCloud (s : State) : Bool :=
  match s.g_pCloudLibrary with
  | none => false
  | some lib => lib.IsRunningInCloud.isNone

/-- The status and output of `GfnIsTitleAvailable` with a non-null
`isAvailable`, gate by gate: null `platformAppId`, cloud library absent, not
running in cloud, `IsTitleAvailable` missing, each with output false; else
`gfnSuccess` with what `IsTitleAvailable(platformAppId)` returns. -/
def titleAvailableOutcome (w : World) (platformAppId : Ptr) (s : State) :
    GfnRuntimeError × Bool :=
  if platformAppId = 0 then (gfnInvalidParameter, false)
  else
    match s.g_pCloudLibrary with
    | none => (gfnDllNotPresent, false)
    | some lib =>
      if reportsRunningInCloud w s s.trace = false then (gfnCallWrongEnvironment, false)
      else
        match lib.IsTitleAvailable, lib.IsRunningInCloud with
        | some f, some fr =>
          (gfnSuccess, w.retBool f [Arg.ptr platformAppId] (s.trace ++ [Event.call fr []]))
        | _, _ => (gfnAPINotFound, false)

/-! ## The dispatch gates -/

/-- C1: a cloud-gated call with all required pointers non-null returns
`gfnDllNotPresent` when `g_pCloudLibrary` is null, and `gfnCallWrongEnvironment`
when the library is loaded and its `IsRunningInCloud` entry returns false. -/
theorem cloud_gated_environment_check (w : World) (op : CloudOp) (s : State)
    (hp : ∀ p ∈ op.requiredPointers, p ≠ 0) :
    (s.g_pCloudLibrary = none → ∃ s', op.run w s = .ok (gfnDllNotPresent, s')) ∧
    (∀ lib f, s.g_pCloudLibrary = some lib → lib.IsRunningInCloud = some f →
        w.retBool f [] s.trace = false →
        ∃ s', op.run w s = .ok (gfnCallWrongEnvironment, s')) := by
  constructor
  · intro h
    cases op <;>
      simp_all [CloudOp.run, CloudOp.requiredPointers, GfnFree, GfnGetClientIpV4,
        GfnGetClientLanguageCode, GfnGetClientCountryCode, GfnGetCustomData, GfnGetAuthData,
        GfnIsTitleAvailable, GfnGetTitlesAvailable, GfnSetupTitle, GfnAppReady,
        GfnRegisterExitCallback, GfnRegisterPauseCallback, GfnRegisterInstallCallback,
        GfnRegisterSaveCallback, GfnRegisterSessionInitCallback,
        CHECK_NULL_PARAM, CHECK_CLOUD_ENVIRONMENT, State.store]
  · intro lib f h1 h2 h3
    cases op <;>
      simp_all [CloudOp.run, CloudOp.requiredPointers, GfnFree, GfnGetClientIpV4,
        GfnGetClientLanguageCode, GfnGetClientCountryCode, GfnGetCustomData, GfnGetAuthData,
        GfnIsTitleAvailable, GfnGetTitlesAvailable, GfnSetupTitle, GfnAppReady,
        GfnRegisterExitCallback, GfnRegisterPauseCallback, GfnRegisterInstallCallback,
        GfnRegisterSaveCallback, GfnRegisterSessionInitCallback,
        CHECK_NULL_PARAM, CHECK_CLOUD_ENVIRONMENT, State.store]

/-- C1 at concrete inputs: `GfnFree` before any load, and `GfnSetupTitle` on a
loaded library whose `IsRunningInCloud` returns false. -/
theorem cloud_gated_environment_check_witness :
    (∃ s', (CloudOp.GfnFree 5).run (World.steady none none true (fun _ _ => none) (fun _ => 0) false)
        State.initial = .ok (gfnDllNotPresent, s')) ∧
    (∃ s', (CloudOp.GfnSetupTitle 5).run
        (World.steady none none true (fun _ _ => none) (fun _ => 0) false)
        bareCloudState = .ok (gfnCallWrongEnvironment, s')) :=
  ⟨(cloud_gated_environment_check _ (CloudOp.GfnFree 5) State.initial
      (by simp [CloudOp.requiredPointers])).1 rfl,
   (cloud_gated_environment_check _ (CloudOp.GfnSetupTitle 5) bareCloudState
      (by simp [CloudOp.requiredPointers])).2 bareLibrary 2 rfl rfl rfl⟩

/-- C2: a null required pointer gives `gfnInvalidParameter` in every state,
with the trace (so no library entry point is invoked) and the three globals
unchanged; for the two environment queries the whole state is unchanged. -/
theorem null_parameter_check_first (w : World) (s : State) :
    (∀ op : CloudOp, 0 ∈ op.requiredPointers →
      ∃ s', op.run w s = .ok (gfnInvalidParameter, s') ∧ s'.trace = s.trace ∧
        s'.g_gfnSdkModule = s.g_gfnSdkModule ∧ s'.g_pCloudLibrary = s.g_pCloudLibrary ∧
        s'.g_cloudLibraryStatus = s.g_cloudLibraryStatus) ∧
    GfnIsRunningInCloud w 0 s = .ok (gfnInvalidParameter, s) ∧
    GfnIsRunningInCloudSecure w 0 s = .ok (gfnInvalidParameter, s) := by
  refine ⟨?_, ?_, ?_⟩
  · intro op h0
    cases op <;>
      simp_all [CloudOp.run, CloudOp.requiredPointers, GfnFree, GfnGetClientIpV4,
        GfnGetClientLanguageCode, GfnGetClientCountryCode, GfnGetCustomData, GfnGetAuthData,
        GfnIsTitleAvailable, GfnGetTitlesAvailable, GfnSetupTitle, GfnAppReady,
        GfnRegisterExitCallback, GfnRegisterPauseCallback, GfnRegisterInstallCallback,
        GfnRegisterSaveCallback, GfnRegisterSessionInitCallback,
        CHECK_NULL_PARAM, State.store]
    -- `GfnIsTitleAvailable`: either pointer may be the null one
    rename_i platformAppId isAvailable
    by_cases hA : isAvailable = 0
    · simp [hA]
    · have hP : platformAppId = 0 := by
        rcases h0 with h | h
        · exact absurd h.symm hA
        · exact h.symm
      simp [hA, hP]
  · simp [GfnIsRunningInCloud, CHECK_NULL_PARAM]
  · simp [GfnIsRunningInCloudSecure, CHECK_NULL_PARAM]

/-- C2 at a concrete input: `GfnIsTitleAvailable` with a null `platformAppId`
on a loaded library. -/
theorem null_parameter_check_first_witness :
    ∃ s', (CloudOp.GfnIsTitleAvailable 0 9).run
        (World.steady none none true (fun _ _ => none) (fun _ => 0) true) bareCloudState
          = .ok (gfnInvalidParameter, s') ∧ s'.trace = bareCloudState.trace ∧
        s'.g_gfnSdkModule = bareCloudState.g_gfnSdkModule ∧
        s'.g_pCloudLibrary = bareCloudState.g_pCloudLibrary ∧
        s'.g_cloudLibraryStatus = bareCloudState.g_cloudLibraryStatus :=
  (null_parameter_check_first _ bareCloudState).1 (CloudOp.GfnIsTitleAvailable 0 9)
    (by simp [CloudOp.requiredPointers])

/-- The claim C3 fails as stated: `GfnRegisterExitCallback` with a non-null
callback, the library loaded, `IsRunningInCloud` returning true and
`RegisterExitCallback` unresolved does not return `gfnAPINotFound` when the
`malloc` of the registration record fails; the unchecked write through the
null record comes before the availability check. -/
theorem symbol_check_counterexample :
    (∀ p ∈ (CloudOp.GfnRegisterExitCallback 5 6).requiredPointers, p ≠ 0) ∧
    bareCloudState.g_pCloudLibrary = some bareLibrary ∧
    bareLibrary.IsRunningInCloud = some 2 ∧
    (World.steady none none false (fun _ _ => none) (fun _ => 0) true).retBool 2 []
      bareCloudState.trace = true ∧
    (CloudOp.GfnRegisterExitCallback 5 6).entry bareLibrary = none ∧
    (CloudOp.GfnRegisterExitCallback 5 6).run
      (World.steady none none false (fun _ _ => none) (fun _ => 0) true) bareCloudState
        = .error Fault.nullDeref := by
  refine ⟨by simp [CloudOp.requiredPointers], rfl, rfl, rfl, rfl, rfl⟩

/-- C3 (amended): when the null-parameter and environment checks pass and,
for a registration, the `malloc` of the record succeeds, a null entry in the
resolved table gives `gfnAPINotFound`; the only library entry point invoked is
`IsRunningInCloud` (the trace grows by that call, and by the `malloc` for a
registration). -/
theorem symbol_check_api_not_found (w : World) (op : CloudOp) (s : State)
    (lib : GfnSdkCloudLibrary) (fr : FnPtr)
    (hp : ∀ p ∈ op.requiredPointers, p ≠ 0)
    (hlib : s.g_pCloudLibrary = some lib) (hfr : lib.IsRunningInCloud = some fr)
    (hrun : w.retBool fr [] s.trace = true)
    (halloc : op.isRegistration = true → w.malloc (s.trace ++ [Event.call fr []]) = true)
    (hentry : op.entry lib = none) :
    ∃ s', op.run w s = .ok (gfnAPINotFound, s') ∧
      s'.trace = s.trace ++ [Event.call fr []] ++
        (if op.isRegistration then [Event.malloc] else []) := by
  cases op <;>
    simp_all [CloudOp.run, CloudOp.requiredPointers, CloudOp.entry, CloudOp.isRegistration,
      GfnFree, GfnGetClientIpV4,
      GfnGetClientLanguageCode, GfnGetClientCountryCode, GfnGetCustomData, GfnGetAuthData,
      GfnIsTitleAvailable, GfnGetTitlesAvailable, GfnSetupTitle, GfnAppReady,
      GfnRegisterExitCallback, GfnRegisterPauseCallback, GfnRegisterInstallCallback,
      GfnRegisterSaveCallback, GfnRegisterSessionInitCallback, allocWrappedContext,
      CHECK_NULL_PARAM, CHECK_CLOUD_ENVIRONMENT, CHECK_CLOUD_API_AVAILABLE,
      DELEGATE_TO_CLOUD_LIBRARY, State.store, State.emit]

/-- C3 (amended) at concrete inputs: `GfnGetAuthData` and, with a succeeding
`malloc`, `GfnRegisterSaveCallback`, on a library without those entries. -/
theorem symbol_check_api_not_found_witness :
    (∃ s', (CloudOp.GfnGetAuthData 5).run
        (World.steady none none true (fun _ _ => none) (fun _ => 0) true) bareCloudState
          = .ok (gfnAPINotFound, s') ∧
        s'.trace = bareCloudState.trace ++ [Event.call 2 []] ++
          (if (CloudOp.GfnGetAuthData 5).isRegistration then [Event.malloc] else [])) ∧
    (∃ s', (CloudOp.GfnRegisterSaveCallback 5 6).run
        (World.steady none none true (fun _ _ => none) (fun _ => 0) true) bareCloudState
          = .ok (gfnAPINotFound, s') ∧
        s'.trace = bareCloudState.trace ++ [Event.call 2 []] ++
          (if (CloudOp.GfnRegisterSaveCallback 5 6).isRegistration then [Event.malloc] else [])) :=
  ⟨symbol_check_api_not_found _ (CloudOp.GfnGetAuthData 5) bareCloudState bareLibrary 2
      (by simp [CloudOp.requiredPointers]) rfl rfl rfl (fun _ => rfl) rfl,
   symbol_check_api_not_found _ (CloudOp.GfnRegisterSaveCallback 5 6) bareCloudState bareLibrary 2
      (by simp [CloudOp.requiredPointers]) rfl rfl rfl (fun _ => rfl) rfl⟩

/-- C4: when the three gates pass, a delegating cloud call invokes
`IsRunningInCloud` and then its resolved entry once with the caller's
arguments, and returns the integer that entry returned;
`gfnTranslateCloudStatus` is the identity. -/
theorem delegation_forwards_arguments_and_status (w : World) (op : CloudOp) (args : List Arg)
    (s : State) (lib : GfnSdkCloudLibrary) (fr f : FnPtr)
    (hargs : op.callerArgs = some args)
    (hp : ∀ p ∈ op.requiredPointers, p ≠ 0)
    (hlib : s.g_pCloudLibrary = some lib) (hfr : lib.IsRunningInCloud = some fr)
    (hrun : w.retBool fr [] s.trace = true)
    (hentry : op.entry lib = some f) :
    op.run w s = .ok (w.retStatus f args (s.trace ++ [Event.call fr []]),
      (s.emit (Event.call fr [])).emit (Event.call f args)) ∧
    ∀ status : Int, gfnTranslateCloudStatus status = status := by
  refine ⟨?_, fun _ => rfl⟩
  cases op <;>
    simp_all [CloudOp.run, CloudOp.requiredPointers, CloudOp.entry, CloudOp.callerArgs,
      GfnFree, GfnGetClientIpV4,
      GfnGetClientLanguageCode, GfnGetClientCountryCode, GfnGetCustomData, GfnGetAuthData,
      GfnGetTitlesAvailable, GfnSetupTitle, GfnAppReady,
      CHECK_NULL_PARAM, CHECK_CLOUD_ENVIRONMENT, CHECK_CLOUD_API_AVAILABLE,
      DELEGATE_TO_CLOUD_LIBRARY, gfnTranslateCloudStatus, State.emit]

/-- C4 at a concrete input: `GfnGetClientCountryCode(5, 3)` on a library whose
`GetClientCountryCode` is at address 3 and returns 42. -/
theorem delegation_forwards_arguments_and_status_witness :
    (CloudOp.GfnGetClientCountryCode 5 3).run
        (World.steady none none true (fun _ _ => none) (fun f => if f = 3 then 42 else 0) true)
        countryCloudState =
      .ok (42, (countryCloudState.emit (Event.call 2 [])).emit
        (Event.call 3 [Arg.ptr 5, Arg.uint 3])) :=
  (delegation_forwards_arguments_and_status
    (World.steady none none true (fun _ _ => none) (fun f => if f = 3 then 42 else 0) true)
    (CloudOp.GfnGetClientCountryCode 5 3) [Arg.ptr 5, Arg.uint 3] countryCloudState
    { bareLibrary with GetClientCountryCode := some 3 } 2 3 rfl
    (by simp [CloudOp.requiredPointers]) rfl rfl rfl rfl).1


/-! ## Frame lemmas: what dispatch leaves alone -/

theorem State.sameGlobals_refl (s : State) : s.sameGlobals s := ⟨rfl, rfl, rfl⟩

theorem State.sameGlobals_emit {a b : State} (h : a.sameGlobals b) (e : Event) :
    a.sameGlobals (b.emit e) := h

theorem State.sameGlobals_store {a b : State} (h : a.sameGlobals b) (p : Ptr) (v : Int) :
    a.sameGlobals (b.store p v) := h

theorem CHECK_NULL_PARAM_endsIn {P : State → Prop} {param : Ptr} {s : State}
    {k : Result GfnRuntimeError} (hs : P s) (hk : Result.EndsIn P k) :
    Result.EndsIn P (CHECK_NULL_PARAM param s k) := by
  unfold CHECK_NULL_PARAM
  split
  · exact hs
  · exact hk

theorem CHECK_CLOUD_ENVIRONMENT_endsIn {P : State → Prop} {w : World} {s : State}
    {k : State → Result GfnRuntimeError} (hs : P s) (he : ∀ e, P (s.emit e))
    (hk : ∀ e, Result.EndsIn P (k (s.emit e))) :
    Result.EndsIn P (CHECK_CLOUD_ENVIRONMENT w s k) := by
  unfold CHECK_CLOUD_ENVIRONMENT
  split
  · exact hs
  · split
    · exact hs
    · dsimp only
      split
      · exact he _
      · exact hk _

theorem CHECK_CLOUD_API_AVAILABLE_endsIn {P : State → Prop}
    {Fn : GfnSdkCloudLibrary → Option FnPtr} {s : State} {k : FnPtr → Result GfnRuntimeError}
    (hs : P s) (hk : ∀ f, Result.EndsIn P (k f)) :
    Result.EndsIn P (CHECK_CLOUD_API_AVAILABLE Fn s k) := by
  unfold CHECK_CLOUD_API_AVAILABLE
  split
  · trivial
  · split
    · exact hs
    · exact hk _

theorem DELEGATE_TO_CLOUD_LIBRARY_endsIn {P : State → Prop} {w : World}
    {Fn : GfnSdkCloudLibrary → Option FnPtr} {args : List Arg} {s : State}
    (hs : P s) (he : ∀ e, P (s.emit e)) :
    Result.EndsIn P (DELEGATE_TO_CLOUD_LIBRARY w Fn args s) := by
  unfold DELEGATE_TO_CLOUD_LIBRARY
  exact CHECK_CLOUD_API_AVAILABLE_endsIn hs (fun _ => he _)

theorem allocWrappedContext_endsIn {P : State → Prop} {w : World} {cb ctx : Ptr} {s : State}
    {k : _gfnUserContextCallbackWrapper → State → Result GfnRuntimeError}
    (hk : ∀ r, Result.EndsIn P (k r (s.emit Event.malloc))) :
    Result.EndsIn P (allocWrappedContext w cb ctx s k) := by
  unfold allocWrappedContext
  split
  · trivial
  · exact hk _

/-- A cloud-gated call leaves the three globals as they are. -/
theorem cloudOp_run_sameGlobals (w : World) (op : CloudOp) (s : State) :
    Result.EndsIn s.sameGlobals (op.run w s) := by
  have h0 := State.sameGlobals_refl s
  cases op <;>
    simp only [CloudOp.run, Gfn.GfnFree, Gfn.GfnGetClientIpV4, Gfn.GfnGetClientLanguageCode,
      Gfn.GfnGetClientCountryCode, Gfn.GfnGetCustomData, Gfn.GfnGetAuthData,
      Gfn.GfnIsTitleAvailable, Gfn.GfnGetTitlesAvailable, Gfn.GfnSetupTitle, Gfn.GfnAppReady,
      Gfn.GfnRegisterExitCallback, Gfn.GfnRegisterPauseCallback,
      Gfn.GfnRegisterInstallCallback, Gfn.GfnRegisterSaveCallback,
      Gfn.GfnRegisterSessionInitCallback] <;>
    repeat' first
      | exact h0
      | (intro _)
      | apply CHECK_NULL_PARAM_endsIn
      | apply CHECK_CLOUD_ENVIRONMENT_endsIn
      | apply allocWrappedContext_endsIn
      | apply DELEGATE_TO_CLOUD_LIBRARY_endsIn
      | apply CHECK_CLOUD_API_AVAILABLE_endsIn

/-- A client library call leaves the three globals as they are. -/
theorem clientOp_run_sameGlobals (w : World) (op : ClientOp) (s : State) :
    Result.EndsIn s.sameGlobals (op.run w s) := by
  have h0 := State.sameGlobals_refl s
  cases op <;>
    simp only [ClientOp.run, Gfn.GfnRegisterStreamStatusCallback, Gfn.GfnStartStream,
      Gfn.GfnStartStreamAsync, Gfn.GfnStopStream, Gfn.GfnStopStreamAsync, Gfn.GfnTitleExited] <;>
    split <;> first | exact h0 | (split <;> exact h0)

/-- The query `GfnIsRunningInCloud` leaves the three globals as they are. -/
theorem GfnIsRunningInCloud_sameGlobals (w : World) (p : Ptr) (s : State) :
    Result.EndsIn s.sameGlobals (GfnIsRunningInCloud w p s) := by
  have h0 := State.sameGlobals_refl s
  unfold GfnIsRunningInCloud
  apply CHECK_NULL_PARAM_endsIn h0
  dsimp only
  split
  · exact h0
  · split <;> exact h0

/-- The query `GfnIsRunningInCloudSecure` leaves the three globals as they are. -/
theorem GfnIsRunningInCloudSecure_sameGlobals (w : World) (p : Ptr) (s : State) :
    Result.EndsIn s.sameGlobals (GfnIsRunningInCloudSecure w p s) := by
  have h0 := State.sameGlobals_refl s
  unfold GfnIsRunningInCloudSecure
  apply CHECK_NULL_PARAM_endsIn h0
  dsimp only
  split
  · exact h0
  · split
    · exact h0
    · split
      · trivial
      · exact h0

/-- A trampoline leaves the three globals as they are. -/
theorem trampolineOf_sameGlobals (k : CallbackKind) (status : Int) (payload : Ptr)
    (pContext : Option _gfnUserContextCallbackWrapper) (s : State) :
    s.sameGlobals (trampolineOf k status payload pContext s) := by
  have h0 := State.sameGlobals_refl s
  cases k <;>
    simp only [trampolineOf, _gfnExitCallbackWrapper, _gfnPauseCallbackWrapper,
      _gfnInstallCallbackWrapper, _gfnSaveCallbackWrapper, _gfnSessionInitCallbackWrapper] <;>
    split <;> first | exact h0 | (split <;> exact h0)

theorem gfnFreeCloudLibrary_g_gfnSdkModule (p : Option GfnSdkCloudLibrary) (s : State) :
    (gfnFreeCloudLibrary p s).g_gfnSdkModule = s.g_gfnSdkModule := by
  unfold gfnFreeCloudLibrary
  split
  · rfl
  · dsimp only
    split <;> rfl

/-- The resolver `gfnLoadCloudLibrary` never writes `g_gfnSdkModule`. -/
theorem gfnLoadCloudLibrary_g_gfnSdkModule (w : World) (pp : LibRef) (s : State)
    (loc : Option GfnSdkCloudLibrary) :
    (gfnLoadCloudLibrary w pp s loc).2.1.g_gfnSdkModule = s.g_gfnSdkModule := by
  unfold gfnLoadCloudLibrary
  cases pp <;> simp only [LibRef.assign] <;>
    (repeat' split) <;> rfl

/-- The call `gfnInitializeCloudOnlySdk` never writes `g_gfnSdkModule`. -/
theorem gfnInitializeCloudOnlySdk_g_gfnSdkModule (w : World) (s : State) :
    Result.EndsIn (fun s' => s'.g_gfnSdkModule = s.g_gfnSdkModule)
      (gfnInitializeCloudOnlySdk w s) := by
  have h := gfnLoadCloudLibrary_g_gfnSdkModule w LibRef.global s none
  unfold gfnInitializeCloudOnlySdk
  generalize gfnLoadCloudLibrary w LibRef.global s none = r at h
  obtain ⟨status, s1, loc⟩ := r
  dsimp only at h ⊢
  split
  · exact h
  · split
    · trivial
    · split
      · trivial
      · exact h

/-- The call `gfnCloudOnlySdkIsInitialized` never writes `g_gfnSdkModule`. -/
theorem gfnCloudOnlySdkIsInitialized_g_gfnSdkModule (w : World) (s : State) :
    Result.EndsIn (fun s' => s'.g_gfnSdkModule = s.g_gfnSdkModule)
      (gfnCloudOnlySdkIsInitialized w s) := by
  have h := gfnLoadCloudLibrary_g_gfnSdkModule w LibRef.global s none
  unfold gfnCloudOnlySdkIsInitialized
  generalize gfnLoadCloudLibrary w LibRef.global s none = r at h
  obtain ⟨status, s1, loc⟩ := r
  dsimp only at h ⊢
  split
  · exact h
  · split <;> exact h

/-- The call `gfnShutDownCloudOnlySdk` never writes `g_gfnSdkModule`. -/
theorem gfnShutDownCloudOnlySdk_g_gfnSdkModule (s : State) :
    Result.EndsIn (fun s' => s'.g_gfnSdkModule = s.g_gfnSdkModule)
      (gfnShutDownCloudOnlySdk s) := by
  unfold gfnShutDownCloudOnlySdk
  split
  · dsimp only [Result.EndsIn]
    rw [gfnFreeCloudLibrary_g_gfnSdkModule]
    split <;> rfl
  · rfl

/-- The call `GfnShutdownSdk` never writes `g_gfnSdkModule`. -/
theorem GfnShutdownSdk_g_gfnSdkModule (w : World) (s : State) :
    Result.EndsIn (fun s' => s'.g_gfnSdkModule = s.g_gfnSdkModule)
      (GfnShutdownSdk w s) := by
  have h := gfnShutDownCloudOnlySdk_g_gfnSdkModule s
  unfold GfnShutdownSdk
  generalize gfnShutDownCloudOnlySdk s = r at h
  cases r with
  | error e => trivial
  | ok p =>
    obtain ⟨v, s1⟩ := p
    dsimp only at h ⊢
    split
    · exact h
    · split <;> exact h

theorem Result.EndsIn_map_snd {α : Type} {P : State → Prop} {r : Result α} {s' : State}
    (h : Result.EndsIn P r) (hr : r.map (·.2) = .ok s') : P s' := by
  cases r with
  | error e => simp [Except.map] at hr
  | ok p =>
    obtain ⟨v, s1⟩ := p
    simp only [Except.map, Except.ok.injEq] at hr
    subst hr
    exact h

/-- Every entry other than `GfnInitializeSdk` leaves `g_gfnSdkModule` as it is. -/
theorem op_exec_g_gfnSdkModule (w : World) (op : Op) (s s' : State)
    (hop : op.isGfnInitializeSdk = false) (h : op.exec w s = .ok s') :
    s'.g_gfnSdkModule = s.g_gfnSdkModule := by
  cases op with
  | cloud o => exact (Result.EndsIn_map_snd (cloudOp_run_sameGlobals w o s) h).1
  | client o => exact (Result.EndsIn_map_snd (clientOp_run_sameGlobals w o s) h).1
  | GfnIsRunningInCloud p =>
    exact (Result.EndsIn_map_snd (GfnIsRunningInCloud_sameGlobals w p s) h).1
  | GfnIsRunningInCloudSecure p =>
    exact (Result.EndsIn_map_snd (GfnIsRunningInCloudSecure_sameGlobals w p s) h).1
  | GfnInitializeSdk language dllPath => simp [Op.isGfnInitializeSdk] at hop
  | GfnShutdownSdk => exact Result.EndsIn_map_snd (GfnShutdownSdk_g_gfnSdkModule w s) h
  | gfnShutDownCloudOnlySdk =>
    exact Result.EndsIn_map_snd (gfnShutDownCloudOnlySdk_g_gfnSdkModule s) h
  | gfnLoadCloudLibrary pp =>
    simp only [Op.exec, Except.ok.injEq] at h
    subst h
    exact gfnLoadCloudLibrary_g_gfnSdkModule w pp s none
  | gfnInitializeCloudOnlySdk =>
    exact Result.EndsIn_map_snd (gfnInitializeCloudOnlySdk_g_gfnSdkModule w s) h
  | gfnCloudOnlySdkIsInitialized =>
    exact Result.EndsIn_map_snd (gfnCloudOnlySdkIsInitialized_g_gfnSdkModule w s) h
  | trampoline k status payload pContext =>
    simp only [Op.exec, Except.ok.injEq] at h
    subst h
    exact (trampolineOf_sameGlobals k status payload pContext s).1

/-- A run without `GfnInitializeSdk` leaves `g_gfnSdkModule` as it is. -/
theorem runOps_g_gfnSdkModule (w : World) (ops : List Op) (s s' : State)
    (hno : ∀ o ∈ ops, o.isGfnInitializeSdk = false) (h : runOps w ops s = .ok s') :
    s'.g_gfnSdkModule = s.g_gfnSdkModule := by
  induction ops generalizing s with
  | nil =>
    simp only [runOps, Except.ok.injEq] at h
    rw [h]
  | cons op ops ih =>
    simp only [runOps] at h
    cases hx : op.exec w s with
    | error e => rw [hx] at h; simp at h
    | ok s1 =>
      rw [hx] at h
      have h1 := op_exec_g_gfnSdkModule w op s s1 (hno op (List.mem_cons_self _ _)) hx
      have h2 := ih s1 (fun o ho => hno o (List.mem_cons_of_mem _ ho)) h
      rw [h2, h1]

/-- A client library call on a null `g_gfnSdkModule` returns `gfnAPINotInit`
and does nothing else. -/
theorem clientOp_run_of_module_null (w : World) (op : ClientOp) (s : State)
    (hm : s.g_gfnSdkModule = none) : op.run w s = .ok (gfnAPINotInit, s) := by
  cases op <;>
    simp [ClientOp.run, Gfn.GfnRegisterStreamStatusCallback, Gfn.GfnStartStream,
      Gfn.GfnStartStreamAsync, Gfn.GfnStopStream, Gfn.GfnStopStreamAsync, Gfn.GfnTitleExited,
      hm]

/-- C5: in every state reached from the initial process state by a sequence
of entries that contains no `GfnInitializeSdk`, each of the six client library
operations returns `gfnAPINotInit`, for all arguments (and leaves the state as
it is). -/
theorem client_operations_before_initialize (w : World) (ops : List Op) (s : State)
    (hno : ∀ o ∈ ops, o.isGfnInitializeSdk = false)
    (hreach : runOps w ops State.initial = .ok s) (op : ClientOp) :
    op.run w s = .ok (gfnAPINotInit, s) :=
  clientOp_run_of_module_null w op s
    ((runOps_g_gfnSdkModule w ops State.initial s hno hreach).trans rfl)

/-- C5 at a concrete input: on a machine without the cloud file, after
`gfnCloudOnlySdkIsInitialized`, `GfnShutdownSdk` and `GfnIsRunningInCloud`,
`GfnStartStream` returns `gfnAPINotInit`. -/
theorem client_operations_before_initialize_witness :
    (ClientOp.GfnStartStream 3 4).run
      (World.steady none (some 9) true (fun _ _ => some 1) (fun _ => 0) true)
      { g_gfnSdkModule := none, g_pCloudLibrary := none,
        g_cloudLibraryStatus := gfnInitSuccessClientOnly,
        trace := [Event.PathFileExistsW], stores := [⟨8, 0⟩] } =
    .ok (gfnAPINotInit,
      { g_gfnSdkModule := none, g_pCloudLibrary := none,
        g_cloudLibraryStatus := gfnInitSuccessClientOnly,
        trace := [Event.PathFileExistsW], stores := [⟨8, 0⟩] }) :=
  client_operations_before_initialize
    (World.steady none (some 9) true (fun _ _ => some 1) (fun _ => 0) true)
    [Op.gfnCloudOnlySdkIsInitialized, Op.GfnShutdownSdk, Op.GfnIsRunningInCloud 8] _
    (by simp [Op.isGfnInitializeSdk]) rfl (ClientOp.GfnStartStream 3 4)

/-- C6: the outcome of a client library operation is fixed by
`g_gfnSdkModule` and the exported symbol alone: `gfnAPINotInit` on a null
module, `gfnAPINotFound` on a missing symbol, otherwise one call with the
caller's arguments whose status is returned (`gfnSuccess` for the two "Async"
calls). The cloud library pointer, the cached cloud status and the answers of
`bool` entry points such as `IsRunningInCloud` do not enter. -/
theorem client_operation_dispatch (w : World) (op : ClientOp) (s : State) :
    op.run w s =
      (match s.g_gfnSdkModule with
       | none => .ok (gfnAPINotInit, s)
       | some m =>
         match w.GetProcAddress m op.symbol with
         | none => .ok (gfnAPINotFound, s)
         | some f =>
           .ok (if op.isAsync then gfnSuccess else w.retStatus f op.callerArgs s.trace,
                s.emit (Event.call f op.callerArgs))) ∧
    (∀ (lib : Option GfnSdkCloudLibrary) (st : GfnRuntimeError) (flag : FnPtr → List Arg → Trace → Bool),
      (op.run { w with retBool := flag }
          { s with g_pCloudLibrary := lib, g_cloudLibraryStatus := st }).map (·.1) =
        (op.run w s).map (·.1)) := by
  constructor
  · cases op <;>
      simp only [ClientOp.run, Gfn.GfnRegisterStreamStatusCallback, Gfn.GfnStartStream,
        Gfn.GfnStartStreamAsync, Gfn.GfnStopStream, Gfn.GfnStopStreamAsync, Gfn.GfnTitleExited,
        ClientOp.symbol, ClientOp.callerArgs, ClientOp.isAsync] <;>
      (repeat' split) <;> simp_all
  · intro lib st flag
    cases op <;>
      simp only [ClientOp.run, Gfn.GfnRegisterStreamStatusCallback, Gfn.GfnStartStream,
        Gfn.GfnStartStreamAsync, Gfn.GfnStopStream, Gfn.GfnStopStreamAsync, Gfn.GfnTitleExited] <;>
      (repeat' split) <;> simp_all [Except.map]

/-! ## Resolution of the cloud library -/

/-- Once a resolution was attempted, `gfnLoadCloudLibrary(&g_pCloudLibrary)`
returns the cached status, touches nothing outside, and leaves
`g_pCloudLibrary` null: the first statement `*ppCloudLibrary = NULL` has
already overwritten the global that the cached branch then reads. -/
theorem gfnLoadCloudLibrary_cached (w : World) (s : State) (loc : Option GfnSdkCloudLibrary)
    (h : s.g_cloudLibraryStatus ≠ gfnAPINotInit) :
    gfnLoadCloudLibrary w LibRef.global s loc =
      (s.g_cloudLibraryStatus, { s with g_pCloudLibrary := none }, loc) := by
  simp [gfnLoadCloudLibrary, LibRef.assign, h]

/-- With a cached `gfnSuccess`, `gfnInitializeCloudOnlySdk` reads
`InitializeRuntimeSdk` through the null `g_pCloudLibrary`. -/
theorem gfnInitializeCloudOnlySdk_cached_success (w : World) (s : State)
    (h : s.g_cloudLibraryStatus = gfnSuccess) :
    gfnInitializeCloudOnlySdk w s = .error Fault.nullDeref := by
  have hne : s.g_cloudLibraryStatus ≠ gfnAPINotInit := by rw [h]; decide
  simp [gfnInitializeCloudOnlySdk, gfnLoadCloudLibrary_cached w s none hne, h]

/-- With a cached status other than `gfnSuccess` and `gfnAPINotInit`,
`gfnInitializeCloudOnlySdk` returns it and only nulls `g_pCloudLibrary`. -/
theorem gfnInitializeCloudOnlySdk_cached_failure (w : World) (s : State)
    (h1 : s.g_cloudLibraryStatus ≠ gfnAPINotInit) (h2 : s.g_cloudLibraryStatus ≠ gfnSuccess) :
    gfnInitializeCloudOnlySdk w s =
      .ok (s.g_cloudLibraryStatus, { s with g_pCloudLibrary := none }) := by
  simp [gfnInitializeCloudOnlySdk, gfnLoadCloudLibrary_cached w s none h1, h2]

/-- The cloud half of a first `GfnInitializeSdk` on a machine where the cloud
file exists returns `cloudSideStatus` and never writes `g_gfnSdkModule`. -/
theorem gfnInitializeCloudOnlySdk_first_file_present (w : World) (s : State)
    (hst : s.g_cloudLibraryStatus = gfnAPINotInit)
    (hfile : w.PathFileExistsW s.trace = true) :
    ∃ s1, gfnInitializeCloudOnlySdk w s = .ok (cloudSideStatus w s.trace, s1) ∧
      s1.g_gfnSdkModule = s.g_gfnSdkModule := by
  simp only [gfnInitializeCloudOnlySdk, gfnLoadCloudLibrary, LibRef.assign, hst, ne_eq,
    not_true_eq_false, ite_false, hfile, Bool.true_eq_false, State.emit, cloudSideStatus]
  cases hl : w.gfnSecureLoadCloudLibraryW (s.trace ++ [Event.PathFileExistsW]) with
  | none => 
    simp [gfnCallWrongEnvironment, gfnSuccess]
  | some library =>
    simp only [List.append_assoc, List.singleton_append]
    cases hmal : w.malloc (s.trace ++ [Event.PathFileExistsW, Event.LoadCloudLibrary]) with
    | false => simp [gfnUnableToAllocateMemory, gfnSuccess]
    | true =>
      cases hsym : w.GetProcAddress library "gfnInitializeRuntimeSdk" with
      | none => simp [resolveCloudLibrary, hsym, gfnAPINotFound, gfnSuccess, gfnFreeCloudLibrary, State.emit]
      | some f => simp [resolveCloudLibrary, hsym, gfnTranslateCloudStatus, State.emit]

/-- After the cloud half returned `cloudStatus` in a state with a null
`g_gfnSdkModule`, `GfnInitializeSdk` loads the client library and returns the
client status when `cloudStatus` is `gfnInitSuccessClientOnly`, else `cloudStatus`. -/
theorem GfnInitializeSdk_of_cloud_half (w : World) (language : Int) (dllPath : Ptr)
    (s s1 : State) (cloudStatus : GfnRuntimeError)
    (h1 : gfnInitializeCloudOnlySdk w s = .ok (cloudStatus, s1))
    (hm1 : s1.g_gfnSdkModule = none) :
    ∃ s', GfnInitializeSdk w language dllPath s =
        .ok (if cloudStatus = gfnInitSuccessClientOnly
              then clientInitStatus w language dllPath s1.trace else cloudStatus, s') ∧
      s'.g_pCloudLibrary = s1.g_pCloudLibrary ∧
      s'.g_cloudLibraryStatus = s1.g_cloudLibraryStatus ∧
      s'.g_gfnSdkModule = w.gfnSecureLoadClientLibraryW dllPath s1.trace ∧
      (s'.trace = s1.trace ++ [Event.LoadClientLibrary dllPath] ∨
        ∃ f, s'.trace = s1.trace ++
          [Event.LoadClientLibrary dllPath, Event.call f [Arg.int language]]) := by
  simp only [GfnInitializeSdk, h1, hm1, clientInitStatus, State.emit]
  cases hl : w.gfnSecureLoadClientLibraryW dllPath s1.trace with
  | none => by_cases hc : cloudStatus = gfnInitSuccessClientOnly <;> simp [hc]
  | some m =>
    cases hsym : w.GetProcAddress m "gfnInitializeRuntimeSdk" with
    | none => by_cases hc : cloudStatus = gfnInitSuccessClientOnly <;> simp [hc, hsym]
    | some f => by_cases hc : cloudStatus = gfnInitSuccessClientOnly <;> simp [hc, hsym]

/-- The claim C7 fails as stated: the cloud file exists, the cloud library
loads and its `InitializeRuntimeSdk` (address 1) returns
`gfnInitSuccessClientOnly`; the client library cannot be loaded. The first
`GfnInitializeSdk` returns the client status `gfnDllNotPresent`, not the cloud
side's status. -/
theorem first_initialize_cloud_status_counterexample :
    State.initial.g_gfnSdkModule = none ∧
    State.initial.g_cloudLibraryStatus = gfnAPINotInit ∧
    (World.steady (some 7) none true (fun _ _ => some 1)
      (fun _ => gfnInitSuccessClientOnly) true).PathFileExistsW State.initial.trace = true ∧
    cloudSideStatus (World.steady (some 7) none true (fun _ _ => some 1)
      (fun _ => gfnInitSuccessClientOnly) true) State.initial.trace = gfnInitSuccessClientOnly ∧
    (∃ s', GfnInitializeSdk (World.steady (some 7) none true (fun _ _ => some 1)
      (fun _ => gfnInitSuccessClientOnly) true) 0 5 State.initial
        = .ok (gfnDllNotPresent, s')) ∧
    gfnDllNotPresent ≠ gfnInitSuccessClientOnly :=
  ⟨rfl, rfl, rfl, rfl, ⟨_, rfl⟩, by decide⟩

/-- The cloud side's status of a first initialisation on a machine where the
cloud file exists is `gfnInitSuccessClientOnly` only when the cloud library
loaded, was allocated, exports `gfnInitializeRuntimeSdk`, and that function
itself returned `gfnInitSuccessClientOnly`; the cloud half then returns that
value after exactly these four events. -/
theorem gfnInitializeCloudOnlySdk_first_client_only (w : World) (s : State)
    (hst : s.g_cloudLibraryStatus = gfnAPINotInit)
    (hfile : w.PathFileExistsW s.trace = true)
    (hcs : cloudSideStatus w s.trace = gfnInitSuccessClientOnly) :
    ∃ library f s1,
      w.gfnSecureLoadCloudLibraryW (s.trace ++ [Event.PathFileExistsW]) = some library ∧
      w.GetProcAddress library "gfnInitializeRuntimeSdk" = some f ∧
      w.retStatus f [] (s.trace ++ [Event.PathFileExistsW, Event.LoadCloudLibrary, Event.malloc])
        = gfnInitSuccessClientOnly ∧
      gfnInitializeCloudOnlySdk w s = .ok (gfnInitSuccessClientOnly, s1) ∧
      s1.g_gfnSdkModule = s.g_gfnSdkModule ∧
      s1.trace = s.trace ++
        [Event.PathFileExistsW, Event.LoadCloudLibrary, Event.malloc, Event.call f []] := by
  simp only [cloudSideStatus] at hcs
  simp only [gfnInitializeCloudOnlySdk, gfnLoadCloudLibrary, LibRef.assign, hst, ne_eq,
    not_true_eq_false, ite_false, hfile, Bool.true_eq_false, State.emit]
  cases hl : w.gfnSecureLoadCloudLibraryW (s.trace ++ [Event.PathFileExistsW]) with
  | none =>
    simp [hl, gfnCallWrongEnvironment, gfnInitSuccessClientOnly] at hcs
  | some library =>
    simp only [List.append_assoc, List.singleton_append]
    cases hmal : w.malloc (s.trace ++ [Event.PathFileExistsW, Event.LoadCloudLibrary]) with
    | false =>
      simp [hl, hmal, gfnUnableToAllocateMemory, gfnInitSuccessClientOnly] at hcs
    | true =>
      cases hsym : w.GetProcAddress library "gfnInitializeRuntimeSdk" with
      | none =>
        simp [hl, hmal, hsym, gfnAPINotFound, gfnInitSuccessClientOnly] at hcs
      | some f =>
        simp only [hl, hmal, hsym, Bool.true_eq_false, ite_false] at hcs
        refine ⟨library, f, ?_⟩
        simp [resolveCloudLibrary, hsym, gfnTranslateCloudStatus, State.emit, hcs]

/-- C7 (amended): a first `GfnInitializeSdk` (null `g_gfnSdkModule`, cached
status `gfnAPINotInit`) on a machine where the cloud file exists returns the
cloud side's status whatever the client library does, unless that status is
`gfnInitSuccessClientOnly`. That case arises only when the cloud library
loaded and its `InitializeRuntimeSdk` itself returned
`gfnInitSuccessClientOnly`, and then the call returns the client library's
own init status (`clientInitStatus`, the client library being loaded right
after the cloud library's `InitializeRuntimeSdk` call). -/
theorem first_initialize_cloud_status (w : World) (language : Int) (dllPath : Ptr) (s : State)
    (hm : s.g_gfnSdkModule = none) (hst : s.g_cloudLibraryStatus = gfnAPINotInit)
    (hfile : w.PathFileExistsW s.trace = true) :
    (cloudSideStatus w s.trace ≠ gfnInitSuccessClientOnly →
      ∃ s', GfnInitializeSdk w language dllPath s = .ok (cloudSideStatus w s.trace, s')) ∧
    (cloudSideStatus w s.trace = gfnInitSuccessClientOnly →
      ∃ library f s',
        w.gfnSecureLoadCloudLibraryW (s.trace ++ [Event.PathFileExistsW]) = some library ∧
        w.GetProcAddress library "gfnInitializeRuntimeSdk" = some f ∧
        w.retStatus f [] (s.trace ++ [Event.PathFileExistsW, Event.LoadCloudLibrary, Event.malloc])
          = gfnInitSuccessClientOnly ∧
        GfnInitializeSdk w language dllPath s =
          .ok (clientInitStatus w language dllPath (s.trace ++
            [Event.PathFileExistsW, Event.LoadCloudLibrary, Event.malloc, Event.call f []]),
            s')) := by
  refine ⟨fun hne => ?_, fun hcs => ?_⟩
  · obtain ⟨s1, h1, hm1⟩ := gfnInitializeCloudOnlySdk_first_file_present w s hst hfile
    obtain ⟨s', h, -⟩ := GfnInitializeSdk_of_cloud_half w language dllPath s s1 _ h1 (hm1.trans hm)
    rw [if_neg hne] at h
    exact ⟨s', h⟩
  · obtain ⟨library, f, s1, hl, hsym, hret, h1, hm1, ht1⟩ :=
      gfnInitializeCloudOnlySdk_first_client_only w s hst hfile hcs
    obtain ⟨s', h, -⟩ := GfnInitializeSdk_of_cloud_half w language dllPath s s1 _ h1 (hm1.trans hm)
    rw [if_pos rfl, ht1] at h
    exact ⟨library, f, s', hl, hsym, hret, h⟩

/-- C7 (amended) at two concrete inputs. First machine: the cloud library
loads and its `InitializeRuntimeSdk` returns 33, the client library cannot be
loaded; the call returns 33. Second machine: the cloud library's
`InitializeRuntimeSdk` returns `gfnInitSuccessClientOnly` and the client
library cannot be loaded; the call returns the client status
`gfnDllNotPresent`. -/
theorem first_initialize_cloud_status_witness :
    (∃ s', GfnInitializeSdk (World.steady (some 7) none true (fun _ _ => some 1)
        (fun _ => 33) true) 0 5 State.initial = .ok (33, s')) ∧
    (∃ library f s',
      (World.steady (some 7) none true (fun _ _ => some 1)
        (fun _ => gfnInitSuccessClientOnly) true).gfnSecureLoadCloudLibraryW
          (State.initial.trace ++ [Event.PathFileExistsW]) = some library ∧
      (World.steady (some 7) none true (fun _ _ => some 1)
        (fun _ => gfnInitSuccessClientOnly) true).GetProcAddress library
          "gfnInitializeRuntimeSdk" = some f ∧
      (World.steady (some 7) none true (fun _ _ => some 1)
        (fun _ => gfnInitSuccessClientOnly) true).retStatus f []
          (State.initial.trace ++ [Event.PathFileExistsW, Event.LoadCloudLibrary, Event.malloc])
          = gfnInitSuccessClientOnly ∧
      GfnInitializeSdk (World.steady (some 7) none true (fun _ _ => some 1)
        (fun _ => gfnInitSuccessClientOnly) true) 0 5 State.initial =
          .ok (clientInitStatus (World.steady (some 7) none true (fun _ _ => some 1)
            (fun _ => gfnInitSuccessClientOnly) true) 0 5 (State.initial.trace ++
              [Event.PathFileExistsW, Event.LoadCloudLibrary, Event.malloc, Event.call f []]),
            s')) :=
  ⟨(first_initialize_cloud_status (World.steady (some 7) none true (fun _ _ => some 1)
      (fun _ => 33) true) 0 5 State.initial rfl rfl rfl).1 (by decide),
   (first_initialize_cloud_status (World.steady (some 7) none true (fun _ _ => some 1)
      (fun _ => gfnInitSuccessClientOnly) true) 0 5 State.initial rfl rfl rfl).2 rfl⟩

/-- The cloud half of a first `GfnInitializeSdk` on a machine without the
cloud file: one file test, status `gfnInitSuccessClientOnly`, nothing loaded. -/
theorem gfnInitializeCloudOnlySdk_first_file_absent (w : World) (s : State)
    (hst : s.g_cloudLibraryStatus = gfnAPINotInit)
    (hfile : w.PathFileExistsW s.trace = false) :
    gfnInitializeCloudOnlySdk w s =
      .ok (gfnInitSuccessClientOnly,
        { s with g_pCloudLibrary := none, g_cloudLibraryStatus := gfnInitSuccessClientOnly,
                 trace := s.trace ++ [Event.PathFileExistsW] }) := by
  simp [gfnInitializeCloudOnlySdk, gfnLoadCloudLibrary, LibRef.assign, hst, hfile, State.emit,
    gfnInitSuccessClientOnly, gfnSuccess]

/-- The claim C8 fails as stated: the cloud file does not exist, the client
library loads and its `gfnInitializeRuntimeSdk` (address 1) returns
`gfnCallWrongEnvironment`; the first `GfnInitializeSdk` passes that value on. -/
theorem first_initialize_client_status_counterexample :
    State.initial.g_gfnSdkModule = none ∧
    State.initial.g_cloudLibraryStatus = gfnAPINotInit ∧
    (World.steady none (some 9) true (fun _ _ => some 1)
      (fun _ => gfnCallWrongEnvironment) true).PathFileExistsW State.initial.trace = false ∧
    ∃ s', GfnInitializeSdk (World.steady none (some 9) true (fun _ _ => some 1)
      (fun _ => gfnCallWrongEnvironment) true) 0 5 State.initial
        = .ok (gfnCallWrongEnvironment, s') :=
  ⟨rfl, rfl, rfl, ⟨_, rfl⟩⟩

/-- C8 (amended): a first `GfnInitializeSdk` on a machine where the cloud
file does not exist returns the client library's own init status; that status
is `gfnCallWrongEnvironment` only if the client library loaded, exports
`gfnInitializeRuntimeSdk`, and that function itself returned
`gfnCallWrongEnvironment`. -/
theorem first_initialize_client_status (w : World) (language : Int) (dllPath : Ptr) (s : State)
    (hm : s.g_gfnSdkModule = none) (hst : s.g_cloudLibraryStatus = gfnAPINotInit)
    (hfile : w.PathFileExistsW s.trace = false) :
    (∃ s', GfnInitializeSdk w language dllPath s =
      .ok (clientInitStatus w language dllPath (s.trace ++ [Event.PathFileExistsW]), s')) ∧
    (clientInitStatus w language dllPath (s.trace ++ [Event.PathFileExistsW])
        = gfnCallWrongEnvironment →
      ∃ m f, w.gfnSecureLoadClientLibraryW dllPath (s.trace ++ [Event.PathFileExistsW]) = some m ∧
        w.GetProcAddress m "gfnInitializeRuntimeSdk" = some f ∧
        w.retStatus f [Arg.int language]
          (s.trace ++ [Event.PathFileExistsW] ++ [Event.LoadClientLibrary dllPath])
            = gfnCallWrongEnvironment) := by
  constructor
  · have h1 := gfnInitializeCloudOnlySdk_first_file_absent w s hst hfile
    obtain ⟨s', h, -⟩ := GfnInitializeSdk_of_cloud_half w language dllPath s _ _ h1 hm
    rw [if_pos rfl] at h
    exact ⟨s', h⟩
  · intro h
    unfold clientInitStatus at h
    cases hl : w.gfnSecureLoadClientLibraryW dllPath (s.trace ++ [Event.PathFileExistsW]) with
    | none => rw [hl] at h; dsimp only at h; exact absurd h (by decide)
    | some m =>
      rw [hl] at h
      dsimp only at h
      cases hsym : w.GetProcAddress m "gfnInitializeRuntimeSdk" with
      | none => rw [hsym] at h; dsimp only at h; exact absurd h (by decide)
      | some f => rw [hsym] at h; exact ⟨m, f, rfl, hsym, h⟩

/-- C8 (amended) at a concrete input: no cloud file, the client library
loads and its `gfnInitializeRuntimeSdk` returns 0. -/
theorem first_initialize_client_status_witness :
    ∃ s', GfnInitializeSdk (World.steady none (some 9) true (fun _ _ => some 1)
        (fun _ => 0) true) 0 5 State.initial
      = .ok (clientInitStatus (World.steady none (some 9) true (fun _ _ => some 1)
          (fun _ => 0) true) 0 5 (State.initial.trace ++ [Event.PathFileExistsW]), s') :=
  (first_initialize_client_status _ 0 5 State.initial rfl rfl rfl).1

/-- In every state whose cached cloud status is `gfnSuccess`, whatever the
client module handle, `GfnInitializeSdk` faults in its cloud half. -/
theorem GfnInitializeSdk_cached_success (w : World) (language : Int) (dllPath : Ptr)
    (s : State) (h : s.g_cloudLibraryStatus = gfnSuccess) :
    GfnInitializeSdk w language dllPath s = .error Fault.nullDeref := by
  simp [GfnInitializeSdk, gfnInitializeCloudOnlySdk_cached_success w s h]

/-- C9, the code at the failing input: on a cloud host a first
`GfnInitializeSdk` succeeds and leaves the client module handle non-null, the
cloud library loaded and the cached status `gfnSuccess`; a second
`GfnInitializeSdk` in that state does not return `gfnSuccess` but reads
through the null `g_pCloudLibrary`. -/
theorem second_initialize_on_cloud_host_faults :
    ∃ s1, GfnInitializeSdk cloudHost 0 5 State.initial = .ok (gfnSuccess, s1) ∧
      s1.g_gfnSdkModule = some 9 ∧ s1.g_pCloudLibrary.isSome = true ∧
      s1.g_cloudLibraryStatus = gfnSuccess ∧
      GfnInitializeSdk cloudHost 0 5 s1 = .error Fault.nullDeref :=
  ⟨_, rfl, rfl, rfl, rfl, rfl⟩

/-- The cloud half of the shutdown returns `gfnSuccess`, never faults, and
leaves `g_pCloudLibrary` null; the cached status is reset to `gfnAPINotInit`
only when a library was loaded. -/
theorem gfnShutDownCloudOnlySdk_spec (s : State) :
    ∃ s1, gfnShutDownCloudOnlySdk s = .ok (gfnSuccess, s1) ∧
      s1.g_pCloudLibrary = none ∧ s1.g_gfnSdkModule = s.g_gfnSdkModule ∧
      s1.g_cloudLibraryStatus =
        (if s.g_pCloudLibrary.isSome then gfnAPINotInit else s.g_cloudLibraryStatus) ∧
      (s.g_pCloudLibrary = none → s1 = s) := by
  unfold gfnShutDownCloudOnlySdk
  cases hlib : s.g_pCloudLibrary with
  | none => exact ⟨s, rfl, hlib, rfl, by simp, fun _ => rfl⟩
  | some lib =>
    refine ⟨_, rfl, rfl, ?_, rfl, fun h => absurd h (by simp)⟩
    dsimp only
    rw [gfnFreeCloudLibrary_g_gfnSdkModule]
    split <;> rfl

/-- What `GfnShutdownSdk` does in every state: it never faults, returns
`shutdownStatus`, leaves `g_pCloudLibrary` null and `g_gfnSdkModule` as it
was, and resets the cached status only when a cloud library was loaded. -/
theorem GfnShutdownSdk_spec (w : World) (s : State) :
    ∃ s1, GfnShutdownSdk w s = .ok (shutdownStatus w s, s1) ∧
      s1.g_pCloudLibrary = none ∧ s1.g_gfnSdkModule = s.g_gfnSdkModule ∧
      s1.g_cloudLibraryStatus =
        (if s.g_pCloudLibrary.isSome then gfnAPINotInit else s.g_cloudLibraryStatus) := by
  obtain ⟨s0, h0, hlib, hmod, hst, -⟩ := gfnShutDownCloudOnlySdk_spec s
  simp only [GfnShutdownSdk, h0, shutdownStatus, ← hmod]
  cases hm : s0.g_gfnSdkModule with
  | none => exact ⟨s0, rfl, hlib, hm, hst⟩
  | some m =>
    dsimp only
    cases hsym : w.GetProcAddress m "gfnShutdownRuntimeSdk" with
    | none => exact ⟨s0, rfl, hlib, hm, hst⟩
    | some f => exact ⟨_, rfl, hlib, hm, hst⟩

/-- C11, the code at the failing input: on a client machine (no cloud file)
`GfnInitializeSdk` followed by `GfnShutdownSdk` ends in a state whose client
module handle is still non-null and whose cached cloud status is still
`gfnInitSuccessClientOnly`; a following `GfnInitializeSdk` returns `gfnSuccess`
without any file test or library load (the state, trace included, is
unchanged). -/
theorem shutdown_keeps_cached_state :
    ∃ s1 s2, GfnInitializeSdk clientMachine 0 5 State.initial = .ok (gfnSuccess, s1) ∧
      GfnShutdownSdk clientMachine s1 = .ok (gfnSuccess, s2) ∧
      s2.g_gfnSdkModule = some 9 ∧
      s2.g_cloudLibraryStatus = gfnInitSuccessClientOnly ∧
      GfnInitializeSdk clientMachine 0 5 s2 = .ok (gfnSuccess, s2) :=
  ⟨_, _, rfl, rfl, rfl, rfl, rfl⟩

/-- The claim C12 fails as stated: after `GfnInitializeSdk` on a machine whose
client library exports `gfnInitializeRuntimeSdk` but not
`gfnShutdownRuntimeSdk`, `GfnShutdownSdk` returns `gfnAPINotFound`. -/
theorem shutdown_status_counterexample :
    ∃ s1 s2, GfnInitializeSdk initOnlyClientMachine 0 5 State.initial = .ok (gfnSuccess, s1) ∧
      GfnShutdownSdk initOnlyClientMachine s1 = .ok (gfnAPINotFound, s2) ∧
      gfnAPINotFound ≠ gfnSuccess :=
  ⟨_, _, rfl, rfl, by decide⟩

/-- C12 (amended): `GfnShutdownSdk` returns in every process state; the status
is `gfnSuccess` when nothing was loaded, when only the cloud library was
loaded, and when a loaded cloud library lacks its shutdown entry point; it is
`gfnAPINotFound` exactly when the client module is loaded and does not export
`gfnShutdownRuntimeSdk`. -/
theorem shutdown_status (w : World) (s : State) :
    (∃ s1, GfnShutdownSdk w s = .ok (shutdownStatus w s, s1)) ∧
    (s.g_gfnSdkModule = none → shutdownStatus w s = gfnSuccess) ∧
    (shutdownStatus w s = gfnAPINotFound ↔
      ∃ m, s.g_gfnSdkModule = some m ∧ w.GetProcAddress m "gfnShutdownRuntimeSdk" = none) := by
  refine ⟨?_, ?_, ?_⟩
  · obtain ⟨s1, h, -⟩ := GfnShutdownSdk_spec w s
    exact ⟨s1, h⟩
  · intro h
    simp [shutdownStatus, h]
  · unfold shutdownStatus
    cases hm : s.g_gfnSdkModule with
    | none => simp; decide
    | some m =>
      cases hsym : w.GetProcAddress m "gfnShutdownRuntimeSdk" with
      | none => simp [hsym]
      | some f => simp [hsym]; decide

/-! ## The probe `gfnCloudOnlySdkIsInitialized` -/

/-- Once a resolution was attempted, `gfnCloudOnlySdkIsInitialized` returns
false, whatever was loaded: the resolver has nulled `g_pCloudLibrary` before
the probe reads it. Nothing outside is touched. -/
theorem gfnCloudOnlySdkIsInitialized_cached (w : World) (s : State)
    (h : s.g_cloudLibraryStatus ≠ gfnAPINotInit) :
    gfnCloudOnlySdkIsInitialized w s = .ok (false, { s with g_pCloudLibrary := none }) := by
  simp [gfnCloudOnlySdkIsInitialized, gfnLoadCloudLibrary_cached w s none h]

/-- C14, the code at the failing input: on a cloud host `GfnInitializeSdk`
loads the cloud library (its `IsInitialized`, address 1, reports true); the
probe called next returns false and leaves `g_pCloudLibrary` null. -/
theorem isInitialized_after_initialize_is_false :
    ∃ s1 lib s2, GfnInitializeSdk cloudHost 0 5 State.initial = .ok (gfnSuccess, s1) ∧
      s1.g_pCloudLibrary = some lib ∧ lib.IsInitialized = some 1 ∧
      (∀ t, cloudHost.retBool 1 [] t = true) ∧
      gfnCloudOnlySdkIsInitialized cloudHost s1 = .ok (false, s2) ∧
      s2.g_pCloudLibrary = none :=
  ⟨_, _, _, rfl, rfl, rfl, fun _ => rfl, rfl, rfl⟩

/-! ## The resolver `gfnLoadCloudLibrary` -/

/-- C15: on a first resolution attempt (cached status `gfnAPINotInit`), for
either target of `ppCloudLibrary`, the result of `gfnLoadCloudLibrary` is
`firstResolutionStatus`: file absent, load rejected, allocation failure,
missing `gfnInitializeRuntimeSdk`, else `gfnSuccess`, in this order. The
output library is non-null exactly when the result is `gfnSuccess`, and
replacing the exports of every symbol other than `gfnInitializeRuntimeSdk`
does not change the result. -/
theorem first_resolution_outcome (w : World) (pp : LibRef) (s : State)
    (loc : Option GfnSdkCloudLibrary) (hst : s.g_cloudLibraryStatus = gfnAPINotInit) :
    (gfnLoadCloudLibrary w pp s loc).1 = firstResolutionStatus w s.trace ∧
    ((outputLibrary pp (gfnLoadCloudLibrary w pp s loc)).isSome = true ↔
      (gfnLoadCloudLibrary w pp s loc).1 = gfnSuccess) ∧
    (∀ syms : HMODULE → String → Option FnPtr,
      (∀ h, syms h "gfnInitializeRuntimeSdk" = w.GetProcAddress h "gfnInitializeRuntimeSdk") →
      (gfnLoadCloudLibrary { w with GetProcAddress := syms } pp s loc).1 =
        (gfnLoadCloudLibrary w pp s loc).1) := by
  have key : ∀ w' : World, (gfnLoadCloudLibrary w' pp s loc).1 = firstResolutionStatus w' s.trace ∧
      ((outputLibrary pp (gfnLoadCloudLibrary w' pp s loc)).isSome = true ↔
        (gfnLoadCloudLibrary w' pp s loc).1 = gfnSuccess) := by
    intro w'
    cases pp <;>
    · simp only [gfnLoadCloudLibrary, LibRef.assign, hst, ne_eq, not_true_eq_false, ite_false,
        firstResolutionStatus, outputLibrary, LibRef.read, State.emit]
      cases hfile : w'.PathFileExistsW s.trace with
      | false => simp; decide
      | true =>
        simp only [Bool.true_eq_false, ite_false]
        cases hl : w'.gfnSecureLoadCloudLibraryW (s.trace ++ [Event.PathFileExistsW]) with
        | none => simp; decide
        | some library =>
          simp only [List.append_assoc, List.singleton_append]
          cases hmal : w'.malloc (s.trace ++ [Event.PathFileExistsW, Event.LoadCloudLibrary]) with
          | false => simp; decide
          | true =>
            cases hsym : w'.GetProcAddress library "gfnInitializeRuntimeSdk" with
            | none =>
              simp [resolveCloudLibrary, hsym, gfnFreeCloudLibrary, State.emit]
              decide
            | some f => simp [resolveCloudLibrary, hsym]
  refine ⟨(key w).1, (key w).2, fun syms hs => ?_⟩
  rw [(key w).1, (key _).1]
  simp only [firstResolutionStatus, hs]

/-- C15 at a concrete input: a first resolution on a cloud host succeeds. -/
theorem first_resolution_outcome_witness :
    (gfnLoadCloudLibrary cloudHost LibRef.global State.initial none).1 = gfnSuccess ∧
    (outputLibrary LibRef.global
      (gfnLoadCloudLibrary cloudHost LibRef.global State.initial none)).isSome = true :=
  ⟨(first_resolution_outcome cloudHost LibRef.global State.initial none rfl).1.trans rfl,
   (first_resolution_outcome cloudHost LibRef.global State.initial none rfl).2.1.mpr rfl⟩

/-- Once a resolution was attempted, `gfnLoadCloudLibrary` with either target
returns the cached status; the cached status and the trace are unchanged. -/
theorem gfnLoadCloudLibrary_cached_any (w : World) (pp : LibRef) (s : State)
    (loc : Option GfnSdkCloudLibrary) (h : s.g_cloudLibraryStatus ≠ gfnAPINotInit) :
    (gfnLoadCloudLibrary w pp s loc).1 = s.g_cloudLibraryStatus ∧
    (gfnLoadCloudLibrary w pp s loc).2.1.g_cloudLibraryStatus = s.g_cloudLibraryStatus ∧
    (gfnLoadCloudLibrary w pp s loc).2.1.trace = s.trace := by
  cases pp <;> simp [gfnLoadCloudLibrary, LibRef.assign, h]

/-- C16, the code in every state whose cached cloud status differs from
`gfnAPINotInit`. `gfnLoadCloudLibrary` (either target) returns the cached
status with the cached status and the trace unchanged, so without a file test
or a load. `gfnCloudOnlySdkIsInitialized` returns with both unchanged.
`gfnInitializeCloudOnlySdk` returns a cached failure with both unchanged; with
a cached `gfnSuccess`, which the claim includes, it does not return: the
resolver hands back `gfnSuccess` with `g_pCloudLibrary` nulled and
`g_pCloudLibrary->InitializeRuntimeSdk()` dereferences the null pointer. -/
theorem cached_success_makes_initialize_fault (w : World) (s : State)
    (h : s.g_cloudLibraryStatus ≠ gfnAPINotInit) :
    (∀ pp loc, (gfnLoadCloudLibrary w pp s loc).1 = s.g_cloudLibraryStatus ∧
      (gfnLoadCloudLibrary w pp s loc).2.1.g_cloudLibraryStatus = s.g_cloudLibraryStatus ∧
      (gfnLoadCloudLibrary w pp s loc).2.1.trace = s.trace) ∧
    (∃ b s', gfnCloudOnlySdkIsInitialized w s = .ok (b, s') ∧
      s'.g_cloudLibraryStatus = s.g_cloudLibraryStatus ∧ s'.trace = s.trace) ∧
    (s.g_cloudLibraryStatus ≠ gfnSuccess →
      ∃ s', gfnInitializeCloudOnlySdk w s = .ok (s.g_cloudLibraryStatus, s') ∧
        s'.g_cloudLibraryStatus = s.g_cloudLibraryStatus ∧ s'.trace = s.trace) ∧
    (s.g_cloudLibraryStatus = gfnSuccess →
      (gfnLoadCloudLibrary w LibRef.global s none).2.1.g_pCloudLibrary = none ∧
      gfnInitializeCloudOnlySdk w s = .error Fault.nullDeref) := by
  refine ⟨fun pp loc => gfnLoadCloudLibrary_cached_any w pp s loc h, ?_, ?_, ?_⟩
  · exact ⟨_, _, gfnCloudOnlySdkIsInitialized_cached w s h, rfl, rfl⟩
  · intro hs
    exact ⟨_, gfnInitializeCloudOnlySdk_cached_failure w s h hs, rfl, rfl⟩
  · intro hs
    refine ⟨?_, gfnInitializeCloudOnlySdk_cached_success w s hs⟩
    rw [gfnLoadCloudLibrary_cached w s none h]

/-- C16 at the failing input: on a cloud host a first `GfnInitializeSdk`
succeeds and leaves the cached status `gfnSuccess` with the library loaded;
`gfnInitializeCloudOnlySdk` called in that state dereferences the null
`g_pCloudLibrary` instead of returning with the cached status kept. -/
theorem cached_success_makes_initialize_fault_witness :
    ∃ s1 lib, GfnInitializeSdk cloudHost 0 5 State.initial = .ok (gfnSuccess, s1) ∧
      s1.g_cloudLibraryStatus = gfnSuccess ∧ s1.g_pCloudLibrary = some lib ∧
      (gfnLoadCloudLibrary cloudHost LibRef.global s1 none).2.1.g_pCloudLibrary = none ∧
      gfnInitializeCloudOnlySdk cloudHost s1 = .error Fault.nullDeref :=
  ⟨_, _, rfl, rfl, rfl,
    (cached_success_makes_initialize_fault cloudHost _ (by decide)).2.2.2 rfl⟩

/-! ## Registration and the callback bridge -/

/-- C17: each of the five bridged registrations called with a null callback
returns `gfnInvalidParameter` in every state and for every user context,
and the state, trace included, is unchanged: nothing is allocated, nothing
is registered, no global is written. -/
theorem null_callback_registration (w : World) (pUserContext : Ptr) (s : State) :
    GfnRegisterExitCallback w 0 pUserContext s = .ok (gfnInvalidParameter, s) ∧
    GfnRegisterPauseCallback w 0 pUserContext s = .ok (gfnInvalidParameter, s) ∧
    GfnRegisterInstallCallback w 0 pUserContext s = .ok (gfnInvalidParameter, s) ∧
    GfnRegisterSaveCallback w 0 pUserContext s = .ok (gfnInvalidParameter, s) ∧
    GfnRegisterSessionInitCallback w 0 pUserContext s = .ok (gfnInvalidParameter, s) := by
  refine ⟨?_, ?_, ?_, ?_, ?_⟩ <;>
    simp [GfnRegisterExitCallback, GfnRegisterPauseCallback, GfnRegisterInstallCallback,
      GfnRegisterSaveCallback, GfnRegisterSessionInitCallback, CHECK_NULL_PARAM]

/-- The claim C18 fails as stated: before any initialisation
`GfnRegisterStreamStatusCallback` with a null callback returns
`gfnAPINotInit`; after `GfnInitializeSdk` on a client machine it hands the
null callback to the client library and returns that library's status. -/
theorem null_stream_status_callback_counterexample :
    GfnRegisterStreamStatusCallback clientMachine 0 6 State.initial
      = .ok (gfnAPINotInit, State.initial) ∧
    gfnAPINotInit ≠ gfnInvalidParameter ∧
    ∃ s1, GfnInitializeSdk clientMachine 0 5 State.initial = .ok (gfnSuccess, s1) ∧
      GfnRegisterStreamStatusCallback clientMachine 0 6 s1
        = .ok (gfnSuccess, s1.emit (Event.call 1 [Arg.ptr 0, Arg.ptr 6])) :=
  ⟨rfl, by decide, _, rfl, rfl⟩

/-- C18 (amended): `GfnRegisterStreamStatusCallback` does not test its
callback. With a null callback it returns `gfnAPINotInit` when the client
module handle is null, `gfnAPINotFound` when the module does not export
`gfnRegisterStreamStatusCallback`, and otherwise passes the null callback and
the context to that export and returns its status; so the result is
`gfnInvalidParameter` only if the client library's function returned that. -/
theorem null_stream_status_callback (w : World) (userContext : Ptr) (s : State) :
    GfnRegisterStreamStatusCallback w 0 userContext s =
      (match s.g_gfnSdkModule with
       | none => .ok (gfnAPINotInit, s)
       | some m =>
         match w.GetProcAddress m "gfnRegisterStreamStatusCallback" with
         | none => .ok (gfnAPINotFound, s)
         | some f =>
           .ok (w.retStatus f [Arg.ptr 0, Arg.ptr userContext] s.trace,
                s.emit (Event.call f [Arg.ptr 0, Arg.ptr userContext]))) ∧
    (∀ s', GfnRegisterStreamStatusCallback w 0 userContext s = .ok (gfnInvalidParameter, s') →
      ∃ m f, s.g_gfnSdkModule = some m ∧
        w.GetProcAddress m "gfnRegisterStreamStatusCallback" = some f ∧
        w.retStatus f [Arg.ptr 0, Arg.ptr userContext] s.trace = gfnInvalidParameter) := by
  refine ⟨rfl, fun s' h => ?_⟩
  unfold GfnRegisterStreamStatusCallback at h
  cases hm : s.g_gfnSdkModule with
  | none =>
    rw [hm] at h
    simp only [Except.ok.injEq, Prod.mk.injEq] at h
    exact absurd h.1 (by decide)
  | some m =>
    rw [hm] at h
    dsimp only at h
    cases hsym : w.GetProcAddress m "gfnRegisterStreamStatusCallback" with
    | none =>
      rw [hsym] at h
      simp only [Except.ok.injEq, Prod.mk.injEq] at h
      exact absurd h.1 (by decide)
    | some f =>
      rw [hsym] at h
      simp only [Except.ok.injEq, Prod.mk.injEq] at h
      exact ⟨m, f, rfl, hsym, h.1⟩

/-- C19: for a registration record with a non-null callback `cb` and original
context `c`, and every status `S` and payload `P`: the install and
session-init trampolines make exactly one call `cb(P, c)`, the exit, pause
and save trampolines exactly one call `cb(c)`. The outcome is the same for
every status, and the record itself is not among the arguments. -/
theorem trampoline_forwards_payload_and_context (r : _gfnUserContextCallbackWrapper)
    (hcb : r.fnCallback ≠ 0) (S : Int) (P : Ptr) (s : State) :
    _gfnInstallCallbackWrapper S P (some r) s =
      s.emit (Event.userCallback r.fnCallback [Arg.ptr P, Arg.ptr r.pOrigUserContext]) ∧
    _gfnSessionInitCallbackWrapper S P (some r) s =
      s.emit (Event.userCallback r.fnCallback [Arg.ptr P, Arg.ptr r.pOrigUserContext]) ∧
    _gfnExitCallbackWrapper S P (some r) s =
      s.emit (Event.userCallback r.fnCallback [Arg.ptr r.pOrigUserContext]) ∧
    _gfnPauseCallbackWrapper S P (some r) s =
      s.emit (Event.userCallback r.fnCallback [Arg.ptr r.pOrigUserContext]) ∧
    _gfnSaveCallbackWrapper S P (some r) s =
      s.emit (Event.userCallback r.fnCallback [Arg.ptr r.pOrigUserContext]) ∧
    (∀ (k : CallbackKind) (S2 : Int),
      trampolineOf k S2 P (some r) s = trampolineOf k S P (some r) s) ∧
    Arg.wrapped r ∉ [Arg.ptr P, Arg.ptr r.pOrigUserContext] ∧
    Arg.wrapped r ∉ [Arg.ptr r.pOrigUserContext] := by
  refine ⟨?_, ?_, ?_, ?_, ?_, ?_, by simp, by simp⟩
  · simp [_gfnInstallCallbackWrapper, hcb]
  · simp [_gfnSessionInitCallbackWrapper, hcb]
  · simp [_gfnExitCallbackWrapper, hcb]
  · simp [_gfnPauseCallbackWrapper, hcb]
  · simp [_gfnSaveCallbackWrapper, hcb]
  · intro k S2
    cases k <;> rfl

/-- C19 at a concrete input: the install trampoline with status 3, payload 8
and the record (callback 5, context 6). -/
theorem trampoline_forwards_payload_and_context_witness :
    _gfnInstallCallbackWrapper 3 8 (some ⟨5, 6⟩) State.initial =
      State.initial.emit (Event.userCallback 5 [Arg.ptr 8, Arg.ptr 6]) :=
  (trampoline_forwards_payload_and_context ⟨5, 6⟩ (by decide) 3 8 State.initial).1

/-- The claim C20 fails as stated: `GfnRegisterExitCallback` with a non-null
callback on a loaded library whose `IsRunningInCloud` returns true and whose
`RegisterExitCallback` is resolved passes the three gates, but when the
`malloc` of the record fails nothing reaches `RegisterExitCallback`. -/
theorem registration_round_trip_counterexample :
    (5 : Ptr) ≠ 0 ∧
    exitCloudState.g_pCloudLibrary = some { bareLibrary with RegisterExitCallback := some 4 } ∧
    (World.steady none none false (fun _ _ => none) (fun _ => 0) true).retBool 2 []
      exitCloudState.trace = true ∧
    (CallbackKind.Exit.register 5 6).entry
      { bareLibrary with RegisterExitCallback := some 4 } = some 4 ∧
    (CallbackKind.Exit.register 5 6).run
      (World.steady none none false (fun _ _ => none) (fun _ => 0) true) exitCloudState
        = .error Fault.nullDeref :=
  ⟨by decide, rfl, rfl, rfl, rfl⟩

/-- C20 (amended): for each of the five callback kinds, when the
registration passes the three gates and the `malloc` of the record succeeds,
the kind's `Register...Callback` entry is called exactly once, with the
kind's trampoline and the record (`fnCallback = cb`, `pOrigUserContext = c`),
and its status is returned; the kind's trampoline applied to that record
calls `cb` with the payload (install, session-init) and the original context
`c`, for every status and payload. -/
theorem registration_round_trip (w : World) (k : CallbackKind) (cb c : Ptr) (s : State)
    (lib : GfnSdkCloudLibrary) (fr f : FnPtr)
    (hcb : cb ≠ 0)
    (hlib : s.g_pCloudLibrary = some lib) (hfr : lib.IsRunningInCloud = some fr)
    (hrun : w.retBool fr [] s.trace = true)
    (halloc : w.malloc (s.trace ++ [Event.call fr []]) = true)
    (hentry : (k.register cb c).entry lib = some f) :
    (k.register cb c).run w s =
      .ok (w.retStatus f [Arg.trampoline k, Arg.wrapped ⟨cb, c⟩]
             (s.trace ++ [Event.call fr [], Event.malloc]),
           ((s.emit (Event.call fr [])).emit Event.malloc).emit
             (Event.call f [Arg.trampoline k, Arg.wrapped ⟨cb, c⟩])) ∧
    (∀ (S : Int) (P : Ptr) (s2 : State),
      trampolineOf k S P (some ⟨cb, c⟩) s2 =
        s2.emit (Event.userCallback cb (k.callbackArgs P c))) := by
  constructor
  · cases k <;>
      simp_all [CallbackKind.register, CloudOp.run, CloudOp.entry,
        Gfn.GfnRegisterExitCallback, Gfn.GfnRegisterPauseCallback,
        Gfn.GfnRegisterInstallCallback, Gfn.GfnRegisterSaveCallback,
        Gfn.GfnRegisterSessionInitCallback, allocWrappedContext,
        CHECK_NULL_PARAM, CHECK_CLOUD_ENVIRONMENT, CHECK_CLOUD_API_AVAILABLE,
        DELEGATE_TO_CLOUD_LIBRARY, gfnTranslateCloudStatus, State.emit]
  · intro S P s2
    cases k <;>
      simp [trampolineOf, CallbackKind.callbackArgs, _gfnExitCallbackWrapper,
        _gfnPauseCallbackWrapper, _gfnInstallCallbackWrapper, _gfnSaveCallbackWrapper,
        _gfnSessionInitCallbackWrapper, hcb]

/-- C20 (amended) at a concrete input: `GfnRegisterExitCallback(5, 6)` on a
library with `RegisterExitCallback` at address 4 returning 0. -/
theorem registration_round_trip_witness :
    (CallbackKind.Exit.register 5 6).run
        (World.steady none none true (fun _ _ => none) (fun _ => 0) true) exitCloudState =
      .ok (0, ((exitCloudState.emit (Event.call 2 [])).emit Event.malloc).emit
        (Event.call 4 [Arg.trampoline CallbackKind.Exit, Arg.wrapped ⟨5, 6⟩])) :=
  (registration_round_trip
    (World.steady none none true (fun _ _ => none) (fun _ => 0) true)
    CallbackKind.Exit 5 6 exitCloudState
    { bareLibrary with RegisterExitCallback := some 4 } 2 4 (by decide) rfl rfl rfl rfl rfl).1

/-! ## The environment queries -/

/-- In every state where the cloud library is loaded with `IsRunningInCloud`
resolved and `IsRunningInCloudSecure` unresolved, `GfnIsRunningInCloudSecure`
with a non-null pointer calls through the null `IsRunningInCloudSecure`: the
guard tests the other entry. -/
theorem GfnIsRunningInCloudSecure_unresolved (w : World) (assurance : Ptr) (s : State)
    (lib : GfnSdkCloudLibrary) (fr : FnPtr) (hp : assurance ≠ 0)
    (hlib : s.g_pCloudLibrary = some lib) (hfr : lib.IsRunningInCloud = some fr)
    (hsec : lib.IsRunningInCloudSecure = none) :
    GfnIsRunningInCloudSecure w assurance s = .error Fault.nullCall := by
  simp [GfnIsRunningInCloudSecure, CHECK_NULL_PARAM, hp, State.store, hlib, hfr, hsec]

/-- C21, the code at the failing input: on a cloud host whose library exports
`gfnIsRunningInCloud` but not `gfnIsRunningInCloudSecure`, after
`GfnInitializeSdk` the call `GfnIsRunningInCloudSecure(5)` does not return
`gfnAPINotFound`; it calls the unresolved (null) entry point. -/
theorem running_in_cloud_secure_calls_null_entry :
    ∃ s1 lib, GfnInitializeSdk olderCloudHost 0 5 State.initial = .ok (gfnSuccess, s1) ∧
      s1.g_pCloudLibrary = some lib ∧ lib.IsRunningInCloudSecure = none ∧
      lib.IsRunningInCloud = some 1 ∧
      GfnIsRunningInCloudSecure olderCloudHost 5 s1 = .error Fault.nullCall :=
  ⟨_, _, rfl, rfl, rfl, rfl, rfl⟩

/-- The claim C22 fails as stated: before any load, both queries called with
a non-null pointer return `gfnSuccess`, not `gfnDllNotPresent`. -/
theorem queries_without_library_counterexample :
    State.initial.g_pCloudLibrary = none ∧
    GfnIsRunningInCloud clientMachine 5 State.initial
      = .ok (gfnSuccess, State.initial.store 5 0) ∧
    GfnIsRunningInCloudSecure clientMachine 5 State.initial
      = .ok (gfnSuccess, State.initial.store 5 gfnNotCloud) ∧
    gfnSuccess ≠ gfnDllNotPresent :=
  ⟨rfl, rfl, rfl, by decide⟩

/-- C22 (amended): the two environment queries do not go through the
environment gate. Called with a non-null output pointer while the cloud
library is not loaded they store false (`gfnNotCloud` for the secure query)
through the pointer, invoke nothing and return `gfnSuccess`. -/
theorem queries_without_library (w : World) (p : Ptr) (s : State) (hp : p ≠ 0)
    (hlib : s.g_pCloudLibrary = none) :
    GfnIsRunningInCloud w p s = .ok (gfnSuccess, s.store p 0) ∧
    GfnIsRunningInCloudSecure w p s = .ok (gfnSuccess, s.store p gfnNotCloud) := by
  constructor
  · simp [GfnIsRunningInCloud, CHECK_NULL_PARAM, hp, State.store, hlib]
  · simp [GfnIsRunningInCloudSecure, CHECK_NULL_PARAM, hp, State.store, hlib]

/-- C22 (amended) at a concrete input: after a shutdown on a client machine. -/
theorem queries_without_library_witness :
    GfnIsRunningInCloud clientMachine 8
        { State.initial with g_cloudLibraryStatus := gfnInitSuccessClientOnly } =
      .ok (gfnSuccess,
        State.store { State.initial with g_cloudLibraryStatus := gfnInitSuccessClientOnly } 8 0) :=
  (queries_without_library clientMachine 8
    { State.initial with g_cloudLibraryStatus := gfnInitSuccessClientOnly }
    (by decide) rfl).1

/-! ## The gate invariant -/

theorem CHECK_CLOUD_API_AVAILABLE_extends {Fn : GfnSdkCloudLibrary → Option FnPtr} {s : State}
    {k : FnPtr → Result GfnRuntimeError} (hk : ∀ f, Result.Extends s (k f)) :
    Result.Extends s (CHECK_CLOUD_API_AVAILABLE Fn s k) := by
  unfold CHECK_CLOUD_API_AVAILABLE
  split
  · trivial
  · split
    · exact ⟨[], by simp⟩
    · exact hk _

theorem DELEGATE_TO_CLOUD_LIBRARY_extends {w : World} {Fn : GfnSdkCloudLibrary → Option FnPtr}
    {args : List Arg} {s : State} :
    Result.Extends s (DELEGATE_TO_CLOUD_LIBRARY w Fn args s) := by
  unfold DELEGATE_TO_CLOUD_LIBRARY
  exact CHECK_CLOUD_API_AVAILABLE_extends (fun f => ⟨[Event.call f args], rfl⟩)

theorem allocWrappedContext_extends {w : World} {cb ctx : Ptr} {s : State}
    {k : _gfnUserContextCallbackWrapper → State → Result GfnRuntimeError}
    (hk : ∀ r, Result.Extends (s.emit Event.malloc) (k r (s.emit Event.malloc))) :
    Result.Extends s (allocWrappedContext w cb ctx s k) := by
  unfold allocWrappedContext
  split
  · trivial
  · have h := hk { fnCallback := cb, pOrigUserContext := ctx }
    generalize k { fnCallback := cb, pOrigUserContext := ctx } (s.emit Event.malloc) = r at h
    cases r with
    | error e => trivial
    | ok p =>
      obtain ⟨rest, hrest⟩ := h
      exact ⟨Event.malloc :: rest, by rw [hrest]; simp [State.emit]⟩

theorem CHECK_CLOUD_ENVIRONMENT_gateInvariant {w : World} {s : State}
    {k : State → Result GfnRuntimeError} (hk : ∀ s1, Result.Extends s1 (k s1)) :
    GateInvariant w s (CHECK_CLOUD_ENVIRONMENT w s k) := by
  unfold CHECK_CLOUD_ENVIRONMENT
  cases hlib : s.g_pCloudLibrary with
  | none => exact Or.inl rfl
  | some lib =>
    dsimp only
    cases hfr : lib.IsRunningInCloud with
    | none => exact Or.inl rfl
    | some fr =>
      dsimp only
      cases hrun : w.retBool fr [] s.trace with
      | false =>
        exact Or.inr ⟨lib, fr, [], hlib, hfr, rfl, fun h => absurd rfl h⟩
      | true =>
        simp only [Bool.true_eq_false, ite_false]
        have h := hk (s.emit (Event.call fr []))
        generalize k (s.emit (Event.call fr [])) = r at h
        cases r with
        | error e => exact ⟨lib, fr, hlib, hfr, hrun⟩
        | ok p =>
          obtain ⟨rest, hrest⟩ := h
          exact Or.inr ⟨lib, fr, rest, hlib, hfr, by rw [hrest]; simp [State.emit],
            fun _ => hrun⟩

theorem CHECK_NULL_PARAM_gateInvariant {w : World} {param : Ptr} {s s0 : State}
    {k : Result GfnRuntimeError} (ht : s0.trace = s.trace)
    (hk : GateInvariant w s k) : GateInvariant w s (CHECK_NULL_PARAM param s0 k) := by
  unfold CHECK_NULL_PARAM
  split
  · exact Or.inl ht
  · exact hk

/-- Every cloud-gated call satisfies the gate invariant. -/
theorem cloudOp_run_gateInvariant (w : World) (op : CloudOp) (s : State) :
    GateInvariant w s (op.run w s) := by
  cases op <;>
    simp only [CloudOp.run, Gfn.GfnFree, Gfn.GfnGetClientIpV4, Gfn.GfnGetClientLanguageCode,
      Gfn.GfnGetClientCountryCode, Gfn.GfnGetCustomData, Gfn.GfnGetAuthData,
      Gfn.GfnIsTitleAvailable, Gfn.GfnGetTitlesAvailable, Gfn.GfnSetupTitle, Gfn.GfnAppReady,
      Gfn.GfnRegisterExitCallback, Gfn.GfnRegisterPauseCallback,
      Gfn.GfnRegisterInstallCallback, Gfn.GfnRegisterSaveCallback,
      Gfn.GfnRegisterSessionInitCallback] <;>
    repeat' first
      | apply CHECK_NULL_PARAM_gateInvariant rfl
      | apply CHECK_CLOUD_ENVIRONMENT_gateInvariant
      | (intro _)
      | apply allocWrappedContext_extends
      | apply DELEGATE_TO_CLOUD_LIBRARY_extends
      | apply CHECK_CLOUD_API_AVAILABLE_extends
      | exact ⟨[_], rfl⟩

/-- C23: for every cloud-gated call, state and arguments. If the call returns,
then either it touched nothing outside the wrapper, or the cloud library was
loaded and the first thing touched was its `IsRunningInCloud` entry, and
anything else (any other entry point included) was touched only after that
entry had returned true. If the call faults, it does so after the library
was found loaded and `IsRunningInCloud` had returned true. -/
theorem entry_points_only_behind_the_gate (w : World) (op : CloudOp) (s : State) :
    (∀ v s', op.run w s = .ok (v, s') →
      s'.trace = s.trace ∨
      ∃ lib fr rest, s.g_pCloudLibrary = some lib ∧ lib.IsRunningInCloud = some fr ∧
        s'.trace = s.trace ++ Event.call fr [] :: rest ∧
        (rest ≠ [] → w.retBool fr [] s.trace = true)) ∧
    (∀ e, op.run w s = .error e →
      ∃ lib fr, s.g_pCloudLibrary = some lib ∧ lib.IsRunningInCloud = some fr ∧
        w.retBool fr [] s.trace = true) := by
  have h := cloudOp_run_gateInvariant w op s
  constructor
  · intro v s' hr
    rw [hr] at h
    exact h
  · intro e hr
    rw [hr] at h
    exact h

/-- C23 at a concrete input: `GfnGetClientCountryCode(5, 3)` on a loaded
library calls `GetClientCountryCode` (address 3) after `IsRunningInCloud`
(address 2), which returned true. -/
theorem entry_points_only_behind_the_gate_witness :
    ((countryCloudState.emit (Event.call 2 [])).emit
        (Event.call 3 [Arg.ptr 5, Arg.uint 3])).trace = countryCloudState.trace ∨
    ∃ lib fr rest, countryCloudState.g_pCloudLibrary = some lib ∧
      lib.IsRunningInCloud = some fr ∧
      ((countryCloudState.emit (Event.call 2 [])).emit
        (Event.call 3 [Arg.ptr 5, Arg.uint 3])).trace =
          countryCloudState.trace ++ Event.call fr [] :: rest ∧
      (rest ≠ [] →
        (World.steady none none true (fun _ _ => none) (fun _ => 0) true).retBool fr []
          countryCloudState.trace = true) :=
  (entry_points_only_behind_the_gate
    (World.steady none none true (fun _ _ => none) (fun _ => 0) true)
    (CloudOp.GfnGetClientCountryCode 5 3) countryCloudState).1 0 _ rfl

/-! ## Dispatch only reads the cached state -/

theorem Result.Returns_endsIn {α : Type} {P : State → Prop} {r : Result α}
    (hr : Result.Returns r) (hP : Result.EndsIn P r) : ∃ v s', r = .ok (v, s') ∧ P s' := by
  cases r with
  | error e => exact absurd hr (by simp [Result.Returns])
  | ok p => exact ⟨p.1, p.2, rfl, hP⟩

theorem CHECK_NULL_PARAM_returns {param : Ptr} {s : State} {k : Result GfnRuntimeError}
    (hk : Result.Returns k) : Result.Returns (CHECK_NULL_PARAM param s k) := by
  unfold CHECK_NULL_PARAM
  split
  · trivial
  · exact hk

theorem CHECK_CLOUD_ENVIRONMENT_returns {w : World} {s : State}
    {k : State → Result GfnRuntimeError}
    (hk : ∀ lib e, s.g_pCloudLibrary = some lib → Result.Returns (k (s.emit e))) :
    Result.Returns (CHECK_CLOUD_ENVIRONMENT w s k) := by
  unfold CHECK_CLOUD_ENVIRONMENT
  cases hlib : s.g_pCloudLibrary with
  | none => trivial
  | some lib =>
    dsimp only
    split
    · trivial
    · split
      · trivial
      · exact hk lib _ hlib

theorem CHECK_CLOUD_API_AVAILABLE_returns {Fn : GfnSdkCloudLibrary → Option FnPtr} {s : State}
    {k : FnPtr → Result GfnRuntimeError} {lib : GfnSdkCloudLibrary}
    (hlib : s.g_pCloudLibrary = some lib) (hk : ∀ f, Result.Returns (k f)) :
    Result.Returns (CHECK_CLOUD_API_AVAILABLE Fn s k) := by
  unfold CHECK_CLOUD_API_AVAILABLE
  rw [hlib]
  dsimp only
  split
  · trivial
  · exact hk _

theorem DELEGATE_TO_CLOUD_LIBRARY_returns {w : World} {Fn : GfnSdkCloudLibrary → Option FnPtr}
    {args : List Arg} {s : State} {lib : GfnSdkCloudLibrary}
    (hlib : s.g_pCloudLibrary = some lib) :
    Result.Returns (DELEGATE_TO_CLOUD_LIBRARY w Fn args s) := by
  unfold DELEGATE_TO_CLOUD_LIBRARY
  exact CHECK_CLOUD_API_AVAILABLE_returns hlib (fun _ => trivial)

/-- A cloud-gated call other than a registration never faults. -/
theorem cloudOp_run_returns (w : World) (op : CloudOp) (s : State)
    (hreg : op.isRegistration = false) : Result.Returns (op.run w s) := by
  cases op <;> simp only [CloudOp.isRegistration, Bool.true_eq_false] at hreg <;>
    simp only [CloudOp.run, Gfn.GfnFree, Gfn.GfnGetClientIpV4, Gfn.GfnGetClientLanguageCode,
      Gfn.GfnGetClientCountryCode, Gfn.GfnGetCustomData, Gfn.GfnGetAuthData,
      Gfn.GfnIsTitleAvailable, Gfn.GfnGetTitlesAvailable, Gfn.GfnSetupTitle,
      Gfn.GfnAppReady] <;>
    repeat' first
      | apply CHECK_NULL_PARAM_returns
      | apply CHECK_CLOUD_ENVIRONMENT_returns
      | (intro lib e hlib)
      | exact DELEGATE_TO_CLOUD_LIBRARY_returns hlib
      | exact CHECK_CLOUD_API_AVAILABLE_returns hlib (fun _ => trivial)

/-- A client library call never faults. -/
theorem clientOp_run_returns (w : World) (op : ClientOp) (s : State) :
    Result.Returns (op.run w s) := by
  cases op <;>
    simp only [ClientOp.run, Gfn.GfnRegisterStreamStatusCallback, Gfn.GfnStartStream,
      Gfn.GfnStartStreamAsync, Gfn.GfnStopStream, Gfn.GfnStopStreamAsync, Gfn.GfnTitleExited] <;>
    split <;> first | trivial | (split <;> trivial)

/-- The query `GfnIsRunningInCloud` never faults. -/
theorem GfnIsRunningInCloud_returns (w : World) (p : Ptr) (s : State) :
    Result.Returns (GfnIsRunningInCloud w p s) := by
  unfold GfnIsRunningInCloud
  apply CHECK_NULL_PARAM_returns
  dsimp only
  split
  · trivial
  · split <;> trivial

theorem Result.EndsIn_ok {α : Type} {P : State → Prop} {r : Result α} {v : α} {s' : State}
    (h : Result.EndsIn P r) (hr : r = .ok (v, s')) : P s' := by
  subst hr
  exact h

/-- C24: the getters, `GfnFree`, `GfnIsTitleAvailable`, `GfnSetupTitle`,
`GfnAppReady`, the registrations, the two environment queries, the stream
operations and `GfnTitleExited` leave `g_gfnSdkModule`, `g_pCloudLibrary`
(the pointer and with it the function table) and `g_cloudLibraryStatus` as
they are, whatever status they return. All of them except the registrations
and `GfnIsRunningInCloudSecure` return in every state. -/
theorem dispatch_only_reads_cached_state (w : World) (s : State) :
    (∀ (op : CloudOp) v s', op.run w s = .ok (v, s') → s.sameGlobals s') ∧
    (∀ op : CloudOp, op.isRegistration = false →
      ∃ v s', op.run w s = .ok (v, s') ∧ s.sameGlobals s') ∧
    (∀ op : ClientOp, ∃ v s', op.run w s = .ok (v, s') ∧ s.sameGlobals s') ∧
    (∀ p, ∃ v s', GfnIsRunningInCloud w p s = .ok (v, s') ∧ s.sameGlobals s') ∧
    (∀ p v s', GfnIsRunningInCloudSecure w p s = .ok (v, s') → s.sameGlobals s') :=
  ⟨fun op _ _ hr => Result.EndsIn_ok (cloudOp_run_sameGlobals w op s) hr,
   fun op hreg => Result.Returns_endsIn (cloudOp_run_returns w op s hreg)
     (cloudOp_run_sameGlobals w op s),
   fun op => Result.Returns_endsIn (clientOp_run_returns w op s)
     (clientOp_run_sameGlobals w op s),
   fun p => Result.Returns_endsIn (GfnIsRunningInCloud_returns w p s)
     (GfnIsRunningInCloud_sameGlobals w p s),
   fun p _ _ hr => Result.EndsIn_ok (GfnIsRunningInCloudSecure_sameGlobals w p s) hr⟩

/-- C24 at a concrete input: `GfnRegisterExitCallback(5, 6)` on a loaded
library, with a succeeding `malloc`. -/
theorem dispatch_only_reads_cached_state_witness :
    exitCloudState.sameGlobals
      (((exitCloudState.emit (Event.call 2 [])).emit Event.malloc).emit
        (Event.call 4 [Arg.trampoline CallbackKind.Exit, Arg.wrapped ⟨5, 6⟩])) :=
  (dispatch_only_reads_cached_state
    (World.steady none none true (fun _ _ => none) (fun _ => 0) true) exitCloudState).1
    (CloudOp.GfnRegisterExitCallback 5 6) 0 _ rfl

/-! ## Defects of the callback bridge and of the resolver -/

/-- C25, what the code does when the allocation fails: for each of the five
registrations with a non-null callback and the environment gate passed, a
failing `malloc` of the record does not give a failure status; the two
fields are written through the null pointer. -/
theorem registration_allocation_failure_faults (w : World) (k : CallbackKind) (cb c : Ptr)
    (s : State) (lib : GfnSdkCloudLibrary) (fr : FnPtr)
    (hcb : cb ≠ 0)
    (hlib : s.g_pCloudLibrary = some lib) (hfr : lib.IsRunningInCloud = some fr)
    (hrun : w.retBool fr [] s.trace = true)
    (halloc : w.malloc (s.trace ++ [Event.call fr []]) = false) :
    (k.register cb c).run w s = .error Fault.nullDeref := by
  cases k <;>
    simp_all [CallbackKind.register, CloudOp.run,
      Gfn.GfnRegisterExitCallback, Gfn.GfnRegisterPauseCallback,
      Gfn.GfnRegisterInstallCallback, Gfn.GfnRegisterSaveCallback,
      Gfn.GfnRegisterSessionInitCallback, allocWrappedContext,
      CHECK_NULL_PARAM, CHECK_CLOUD_ENVIRONMENT, State.emit]

/-- C25 at the failing input: `GfnRegisterSessionInitCallback(5, 6)` on a
loaded library, running in cloud, with `malloc` returning null. -/
theorem registration_allocation_failure_faults_witness :
    (CallbackKind.SessionInit.register 5 6).run
      (World.steady none none false (fun _ _ => none) (fun _ => 0) true) bareCloudState
        = .error Fault.nullDeref :=
  registration_allocation_failure_faults
    (World.steady none none false (fun _ _ => none) (fun _ => 0) true)
    CallbackKind.SessionInit 5 6 bareCloudState bareLibrary 2 (by decide) rfl rfl rfl rfl

/-- C26, the code at the failing input: on a cloud host a first
`gfnLoadCloudLibrary(&g_pCloudLibrary)` with its status cached (what
`gfnInitializeCloudOnlySdk` does) leaves a non-null library and the cached
status `gfnSuccess`; a further `gfnLoadCloudLibrary(&g_pCloudLibrary)`
returns `gfnSuccess` but hands back a null library and leaves
`g_pCloudLibrary` null, with no `FreeLibrary` and no `free` in the trace. -/
theorem repeated_resolution_drops_library :
    ∃ s1 lib, gfnInitializeCloudOnlySdk cloudHost State.initial = .ok (gfnSuccess, s1) ∧
      s1.g_cloudLibraryStatus = gfnSuccess ∧ s1.g_pCloudLibrary = some lib ∧
      (gfnLoadCloudLibrary cloudHost LibRef.global s1 none).1 = gfnSuccess ∧
      outputLibrary LibRef.global (gfnLoadCloudLibrary cloudHost LibRef.global s1 none) = none ∧
      (gfnLoadCloudLibrary cloudHost LibRef.global s1 none).2.1.g_pCloudLibrary = none ∧
      (gfnLoadCloudLibrary cloudHost LibRef.global s1 none).2.1.trace = s1.trace :=
  ⟨_, _, rfl, rfl, rfl, rfl, rfl, rfl, rfl⟩

/-- C27, the code at the failing inputs the claim names: on a cloud host,
after `gfnCloudOnlySdkIsInitialized` (which loads the library) as after a
first `GfnInitializeSdk`, the state is reachable, `gfnInitializeCloudOnlySdk`
obtains the resolution status `gfnSuccess` with `g_pCloudLibrary` null, and
dereferences it. -/
theorem initialize_cloud_only_dereferences_null :
    (∃ s1, runOps cloudHost [Op.gfnCloudOnlySdkIsInitialized] State.initial = .ok s1 ∧
      (gfnLoadCloudLibrary cloudHost LibRef.global s1 none).1 = gfnSuccess ∧
      (gfnLoadCloudLibrary cloudHost LibRef.global s1 none).2.1.g_pCloudLibrary = none ∧
      gfnInitializeCloudOnlySdk cloudHost s1 = .error Fault.nullDeref ∧
      runOps cloudHost [Op.gfnCloudOnlySdkIsInitialized, Op.GfnInitializeSdk 0 5]
        State.initial = .error Fault.nullDeref) ∧
    (∃ s1, runOps cloudHost [Op.GfnInitializeSdk 0 5] State.initial = .ok s1 ∧
      (gfnLoadCloudLibrary cloudHost LibRef.global s1 none).1 = gfnSuccess ∧
      (gfnLoadCloudLibrary cloudHost LibRef.global s1 none).2.1.g_pCloudLibrary = none ∧
      gfnInitializeCloudOnlySdk cloudHost s1 = .error Fault.nullDeref) :=
  ⟨⟨_, rfl, rfl, rfl, rfl, rfl⟩, ⟨_, rfl, rfl, rfl, rfl⟩⟩

/-! ## The outputs of `GfnIsRunningInCloud` and `GfnIsTitleAvailable` -/

/-- C28: `GfnIsRunningInCloud` with a non-null output pointer returns in
every state, and the last value it stores through the pointer is true (1)
exactly when the cloud library is loaded, `IsRunningInCloud` is resolved and
reports true, false (0) otherwise; the status is `gfnAPINotFound` exactly
when the library is loaded without that entry point, `gfnSuccess` otherwise. -/
theorem running_in_cloud_output (w : World) (runningInCloud : Ptr) (s : State)
    (hp : runningInCloud ≠ 0) :
    ∃ status s', GfnIsRunningInCloud w runningInCloud s = .ok (status, s') ∧
      s'.stores.getLast? =
        some ⟨runningInCloud, if reportsRunningInCloud w s s.trace then 1 else 0⟩ ∧
      (status = gfnAPINotFound ↔ loadedWithoutIsRunningInCloud s = true) ∧
      (status = gfnSuccess ↔ loadedWithoutIsRunningInCloud s = false) := by
  cases hlib : s.g_pCloudLibrary with
  | none =>
    refine ⟨gfnSuccess, s.store runningInCloud 0, ?_, ?_, ?_, ?_⟩
    · simp [GfnIsRunningInCloud, CHECK_NULL_PARAM, hp, State.store, hlib]
    · simp [State.store, reportsRunningInCloud, hlib]
    · simp [loadedWithoutIsRunningInCloud, hlib]; decide
    · simp [loadedWithoutIsRunningInCloud, hlib]
  | some lib =>
    cases hfr : lib.IsRunningInCloud with
    | none =>
      refine ⟨gfnAPINotFound, s.store runningInCloud 0, ?_, ?_, ?_, ?_⟩
      · simp [GfnIsRunningInCloud, CHECK_NULL_PARAM, hp, State.store, hlib, hfr]
      · simp [State.store, reportsRunningInCloud, hlib, hfr]
      · simp [loadedWithoutIsRunningInCloud, hlib, hfr]
      · simp [loadedWithoutIsRunningInCloud, hlib, hfr]; decide
    | some f =>
      refine ⟨gfnSuccess, ((s.store runningInCloud 0).emit (Event.call f [])).store
        runningInCloud (if w.retBool f [] s.trace then 1 else 0), ?_, ?_, ?_, ?_⟩
      · simp [GfnIsRunningInCloud, CHECK_NULL_PARAM, hp, State.store, State.emit, hlib, hfr]
      · simp [State.store, State.emit, reportsRunningInCloud, hlib, hfr]
      · simp [loadedWithoutIsRunningInCloud, hlib, hfr]; decide
      · simp [loadedWithoutIsRunningInCloud, hlib, hfr]

/-- C28 at a concrete input: on a loaded library whose `IsRunningInCloud`
reports true the output is true and the status `gfnSuccess`. -/
theorem running_in_cloud_output_witness :
    ∃ status s', GfnIsRunningInCloud cloudHost 8 bareCloudState = .ok (status, s') ∧
      s'.stores.getLast? = some ⟨8, 1⟩ ∧ status = gfnSuccess := by
  obtain ⟨status, s', h, hout, -, hs⟩ :=
    running_in_cloud_output cloudHost 8 bareCloudState (by decide)
  exact ⟨status, s', h, hout, hs.mpr rfl⟩

/-- C29: `GfnIsTitleAvailable` with a non-null `isAvailable` returns in every
state with the status and the output of `titleAvailableOutcome`: the last
value stored through `isAvailable` is false (0) together with the gate error
on each failure path, and with `gfnSuccess` it is the boolean returned by
`IsTitleAvailable(platformAppId)`. -/
theorem title_available_output (w : World) (platformAppId isAvailable : Ptr) (s : State)
    (hp : isAvailable ≠ 0) :
    (∃ s', GfnIsTitleAvailable w platformAppId isAvailable s =
        .ok ((titleAvailableOutcome w platformAppId s).1, s') ∧
      s'.stores.getLast? =
        some ⟨isAvailable, if (titleAvailableOutcome w platformAppId s).2 then 1 else 0⟩) ∧
    ((titleAvailableOutcome w platformAppId s).1 ≠ gfnSuccess →
      (titleAvailableOutcome w platformAppId s).2 = false) := by
  by_cases hid : platformAppId = 0
  · simp [GfnIsTitleAvailable, titleAvailableOutcome, CHECK_NULL_PARAM, hp, hid, State.store]
  · cases hlib : s.g_pCloudLibrary with
    | none =>
      simp [GfnIsTitleAvailable, titleAvailableOutcome, CHECK_NULL_PARAM,
        CHECK_CLOUD_ENVIRONMENT, hp, hid, State.store, hlib]
    | some lib =>
      cases hfr : lib.IsRunningInCloud with
      | none =>
        simp [GfnIsTitleAvailable, titleAvailableOutcome, reportsRunningInCloud,
          CHECK_NULL_PARAM, CHECK_CLOUD_ENVIRONMENT, hp, hid, State.store, hlib, hfr]
      | some fr =>
        cases hrun : w.retBool fr [] s.trace with
        | false =>
          simp [GfnIsTitleAvailable, titleAvailableOutcome, reportsRunningInCloud,
            CHECK_NULL_PARAM, CHECK_CLOUD_ENVIRONMENT, hp, hid, State.store, State.emit,
            hlib, hfr, hrun]
        | true =>
          cases hf : lib.IsTitleAvailable with
          | none =>
            simp [GfnIsTitleAvailable, titleAvailableOutcome, reportsRunningInCloud,
              CHECK_NULL_PARAM, CHECK_CLOUD_ENVIRONMENT, CHECK_CLOUD_API_AVAILABLE, hp, hid,
              State.store, State.emit, hlib, hfr, hrun, hf]
          | some f =>
            simp [GfnIsTitleAvailable, titleAvailableOutcome, reportsRunningInCloud,
              CHECK_NULL_PARAM, CHECK_CLOUD_ENVIRONMENT, CHECK_CLOUD_API_AVAILABLE, hp, hid,
              State.store, State.emit, hlib, hfr, hrun, hf]

/-- C29 at a concrete input: no library loaded gives `gfnDllNotPresent` and
the output false. -/
theorem title_available_output_witness :
    ∃ s', GfnIsTitleAvailable clientMachine 4 8 State.initial =
        .ok (gfnDllNotPresent, s') ∧
      s'.stores.getLast? = some ⟨8, 0⟩ :=
  (title_available_output clientMachine 4 8 State.initial (by decide)).1

/-- C30: each of the five trampolines, for every status and payload, leaves
the state as it is (so calls nothing) when its context is null and when the
registration record holds a null callback. -/
theorem trampoline_null_safe (S : Int) (P c : Ptr) (s : State) :
    _gfnExitCallbackWrapper S P none s = s ∧
    _gfnPauseCallbackWrapper S P none s = s ∧
    _gfnInstallCallbackWrapper S P none s = s ∧
    _gfnSaveCallbackWrapper S P none s = s ∧
    _gfnSessionInitCallbackWrapper S P none s = s ∧
    _gfnExitCallbackWrapper S P (some ⟨0, c⟩) s = s ∧
    _gfnPauseCallbackWrapper S P (some ⟨0, c⟩) s = s ∧
    _gfnInstallCallbackWrapper S P (some ⟨0, c⟩) s = s ∧
    _gfnSaveCallbackWrapper S P (some ⟨0, c⟩) s = s ∧
    _gfnSessionInitCallbackWrapper S P (some ⟨0, c⟩) s = s := by
  refine ⟨rfl, rfl, rfl, rfl, rfl, ?_, ?_, ?_, ?_, ?_⟩ <;>
    simp [_gfnExitCallbackWrapper, _gfnPauseCallbackWrapper, _gfnInstallCallbackWrapper,
      _gfnSaveCallbackWrapper, _gfnSessionInitCallbackWrapper]

end Gfn
